import Mathlib

set_option maxRecDepth 8000

/- Shallow embedding of the WebBoost Analyzer scoring and recommendation
   engine (webboost/constants.py, webboost/analysis.py, webboost/scoring.py,
   webboost/recommendations.py, webboost/core.py).

   Modelling conventions:
   * Python floats are modelled as exact rationals (ℚ); Python ints as ℕ/ℤ.
   * Python dicts with a fixed key set are modelled as structures; a dict that
     may be absent (or empty, where the code only tests truthiness) is an
     Option.
   * BeautifulSoup trees are modelled by a small element/text tree `Node`;
     `find_all` / `find` become recursive counting / searching functions in
     document (pre-)order.
   * `round(x, n)` is Python's banker's rounding, modelled exactly on ℚ.
   * External third-party computations (textstat readability formulas) are
     out-of-scope collaborators; their outputs enter as a parameter record,
     with 0 standing for "formula raised", exactly as the per-formula
     exception handlers in scoring.py produce. -/

/- Batteries marks the Rat field operations `@[irreducible]`, which blocks
   `decide` on concrete score computations; re-allow unfolding locally. -/
attribute [local semireducible] Rat.add Rat.mul Rat.sub Rat.ofScientific Rat.inv

namespace WebBoost

/-! ### Character and string utilities (Python str semantics) -/

def isAsciiLetter (c : Char) : Bool :=
  ('a' ≤ c && c ≤ 'z') || ('A' ≤ c && c ≤ 'Z')

def isWordChar (c : Char) : Bool :=
  isAsciiLetter c || c.isDigit || c = '_'

def lowerChars (s : List Char) : List Char := s.map Char.toLower

/-- Python `pat in hay` substring test (true for the empty pattern). -/
def pyContains (hay pat : List Char) : Bool :=
  pat.isPrefixOf hay ||
    match hay with
    | [] => false
    | _ :: t => pyContains t pat

/-- Walk for `pyCount`: `skip` counts positions still covered by the last
    match (so occurrences do not overlap). -/
def pyCountAux (pat : List Char) : List Char → Nat → Nat
  | [], _ => 0
  | _ :: t, Nat.succ k => pyCountAux pat t k
  | c :: t, 0 =>
    if !pat.isEmpty && pat.isPrefixOf (c :: t) then
      1 + pyCountAux pat t (pat.length - 1)
    else
      pyCountAux pat t 0

/-- Python `hay.count(pat)`: number of non-overlapping occurrences, scanning
    left to right (only used with non-empty patterns). -/
def pyCount (hay pat : List Char) : Nat :=
  pyCountAux pat hay 0

/-- Maximal runs of characters satisfying `p` (accumulator form). -/
def runsByAux (p : Char → Bool) : List Char → List Char → List (List Char)
  | cur, [] => if cur.isEmpty then [] else [cur.reverse]
  | cur, c :: t =>
    if p c then runsByAux p (c :: cur) t
    else if cur.isEmpty then runsByAux p [] t
    else cur.reverse :: runsByAux p [] t

def runsBy (p : Char → Bool) (s : List Char) : List (List Char) :=
  runsByAux p [] s

/-- Python `text.split()`: maximal non-whitespace runs. -/
def pySplit (text : String) : List String :=
  (runsBy (fun c => !c.isWhitespace) text.data).map List.asString

/-- Python `text.strip()`. -/
def pyStrip (text : String) : String :=
  (((text.data.dropWhile Char.isWhitespace).reverse.dropWhile
      Char.isWhitespace).reverse).asString

/-! ### Python rounding (`round(x, 2)`, banker's rounding) -/

/-- Python `round(x)`: round half to even. -/
def pyRound (x : ℚ) : ℤ :=
  if Int.fract x < 1/2 then ⌊x⌋
  else if 1/2 < Int.fract x then ⌊x⌋ + 1
  else if ⌊x⌋ % 2 = 0 then ⌊x⌋ else ⌊x⌋ + 1

/-- Python `round(x, 2)`. -/
def pyRound2 (x : ℚ) : ℚ := (pyRound (x * 100) : ℚ) / 100

/-- Python builtin `min` on floats (kernel-reducible form). -/
def pymin (a b : ℚ) : ℚ := if a ≤ b then a else b

/-- Python builtin `max` on floats (kernel-reducible form). -/
def pymax (a b : ℚ) : ℚ := if a ≤ b then b else a

/-! ### Scoring weights (webboost/constants.py) -/

def SCORING_WEIGHTS : List (String × ℚ) :=
  [("informativeness", 0.20),
   ("readability", 0.15),
   ("engagement", 0.15),
   ("uniqueness", 0.15),
   ("layout_quality", 0.10),
   ("discoverability", 0.10),
   ("seo_keywords", 0.05),
   ("ad_experience", 0.05),
   ("social_integration", 0.05)]

def weightOf (k : String) : ℚ := (SCORING_WEIGHTS.lookup k).getD 0

/-- The module-load assertion of constants.py line 19:
    `assert abs(sum(SCORING_WEIGHTS.values()) - 1.0) < 0.001`. -/
def weights_sum_ok : Prop :=
  |(SCORING_WEIGHTS.map Prod.snd).sum - 1| < 0.001

/-! ### ScoreSet and the overall score (core.py analyze, lines 284-344) -/

structure ScoreSet where
  readability : ℚ
  informativeness : ℚ
  engagement : ℚ
  uniqueness : ℚ
  discoverability : ℚ
  ad_experience : ℚ
  social_integration : ℚ
  layout_quality : ℚ
  seo_keywords : ℚ
deriving DecidableEq

/-- The nine criterion keys, in the insertion order of the `scores` dict
    literal in core.py analyze. -/
def criterionKeys : List String :=
  ["readability", "informativeness", "engagement", "uniqueness",
   "discoverability", "ad_experience", "social_integration",
   "layout_quality", "seo_keywords"]

def ScoreSet.toPairs (s : ScoreSet) : List (String × ℚ) :=
  [("readability", s.readability), ("informativeness", s.informativeness),
   ("engagement", s.engagement), ("uniqueness", s.uniqueness),
   ("discoverability", s.discoverability), ("ad_experience", s.ad_experience),
   ("social_integration", s.social_integration),
   ("layout_quality", s.layout_quality), ("seo_keywords", s.seo_keywords)]

/-- Per-criterion weighted contributions `scores[key] * SCORING_WEIGHTS[key]`. -/
def contributions (s : ScoreSet) : List ℚ :=
  s.toPairs.map (fun kv => kv.2 * weightOf kv.1)

/-- core.py lines 339-344: `overall = sum(scores[k] * SCORING_WEIGHTS[k])`,
    `results['overall_score'] = round(overall, 2)`. -/
def overall_score (s : ScoreSet) : ℚ := pyRound2 (contributions s).sum

/-! ### DOM model (BeautifulSoup trees, as consumed by the analyzer) -/

inductive Node where
  | elem (tag : String) (attrs : List (String × String)) (children : List Node)
  | text (s : String)

/-- A parsed document is a forest of top-level nodes; an absent DOM
    (`soup is None`) is modelled as `Option Soup = none`. -/
abbrev Soup := List Node

def getAttr (attrs : List (String × String)) (name : String) : Option String :=
  attrs.lookup name

mutual

def countNode (p : String → List (String × String) → Bool) : Node → Nat
  | .text _ => 0
  | .elem t a cs => (if p t a then 1 else 0) + countForest p cs

def countForest (p : String → List (String × String) → Bool) : List Node → Nat
  | [] => 0
  | n :: ns => countNode p n + countForest p ns

end

mutual

def findNode (p : String → List (String × String) → Bool) : Node → Option Node
  | .text _ => none
  | .elem t a cs =>
    if p t a then some (.elem t a cs) else findForest p cs

def findForest (p : String → List (String × String) → Bool) :
    List Node → Option Node
  | [] => none
  | n :: ns =>
    match findNode p n with
    | some r => some r
    | none => findForest p ns

end

mutual

def collectNode (p : String → List (String × String) → Bool) : Node → List Node
  | .text _ => []
  | .elem t a cs =>
    (if p t a then [Node.elem t a cs] else []) ++ collectForest p cs

def collectForest (p : String → List (String × String) → Bool) :
    List Node → List Node
  | [] => []
  | n :: ns => collectNode p n ++ collectForest p ns

end

def renderAttrs (attrs : List (String × String)) : String :=
  attrs.foldl (fun acc kv => acc ++ " " ++ kv.1 ++ "=\x22" ++ kv.2 ++ "\x22") ""

mutual

/-- Python `str(tag)`: serialized markup of a node (entity escaping and void
    element forms are not modelled). -/
def renderNode : Node → String
  | .text s => s
  | .elem t a cs =>
    "<" ++ t ++ renderAttrs a ++ ">" ++ renderForest cs ++ "</" ++ t ++ ">"

def renderForest : List Node → String
  | [] => ""
  | n :: ns => renderNode n ++ renderForest ns

end

/-- BeautifulSoup `.string`: the single text descendant through single-child
    chains, else None. -/
def nodeString : Node → Option String
  | .text s => some s
  | .elem _ _ [c] => nodeString c
  | .elem _ _ _ => none

def tagIn (tags : List String) : String → List (String × String) → Bool :=
  fun t _ => tags.contains t

/-- Matching a pattern character (`.` is the regex wildcard) at the start of
    the haystack. -/
def wildAt : List Char → List Char → Bool
  | [], _ => true
  | _ :: _, [] => false
  | p :: ps, c :: cs => (p == '.' || p == c) && wildAt ps cs

/-- `re.search(pat, hay)` for the class-name patterns used in the sources:
    plain lowercase substrings with `.` as a single-character wildcard. -/
def wildSearch (pat hay : List Char) : Bool :=
  wildAt pat hay ||
    match hay with
    | [] => false
    | _ :: t => wildSearch pat t

/-- BeautifulSoup `class_=re.compile(alt1|alt2|..., IGNORECASE)`: the tag has
    a class attribute one of whose whitespace-separated tokens matches some
    alternative. -/
def classMatchesAlts (alts : List String) (attrs : List (String × String)) :
    Bool :=
  match getAttr attrs "class" with
  | none => false
  | some v =>
    (runsBy (fun c => !c.isWhitespace) v.data).any
      (fun tok => alts.any (fun a => wildSearch a.data (lowerChars tok)))

/-! ### Signal dictionaries (fixed-shape dicts of the pipeline) -/

structure CitationAnalysis where
  citation_count : ℚ
  source_count : ℚ
  citation_score : ℚ
deriving DecidableEq

structure KeywordAnalysis where
  primary_keywords : List String
  keyword_density : ℚ
  keyword_score : ℚ
deriving DecidableEq

structure InternalLinking where
  internal_links : ℚ
  external_links : ℚ
  linking_score : ℚ
deriving DecidableEq

structure ContentFreshness where
  last_updated : Option String
  update_frequency : ℚ
  freshness_score : ℚ
deriving DecidableEq

structure DesignMetrics where
  whitespace_score : ℚ
  typography_score : ℚ
  color_contrast_score : ℚ
  visual_hierarchy_score : ℚ
deriving DecidableEq

structure MobileData where
  has_viewport : Bool
  handheld_friendly : Bool
  touch_optimized : Bool
deriving DecidableEq

structure SecurityData where
  https : Bool
deriving DecidableEq

structure SeoData where
  indexed : Bool
deriving DecidableEq

structure SocialProof where
  share_counts : ℚ
  follower_counts : ℚ
  testimonials : ℚ
deriving DecidableEq

structure SocialData where
  facebook : Bool
  twitter : Bool
  instagram : Bool
  linkedin : Bool
  youtube : Bool
  pinterest : Bool
  tiktok : Bool
  sharing_buttons : ℚ
  social_proof : SocialProof
deriving DecidableEq

/-- Outputs of the six external textstat readability formulas; a formula that
    raised is recorded as 0, exactly as scoring.py's per-formula handlers do. -/
structure ReadabilityDetails where
  flesch_reading_ease : ℚ
  flesch_kincaid_grade : ℚ
  gunning_fog : ℚ
  smog_index : ℚ
  automated_readability : ℚ
  coleman_liau : ℚ
deriving DecidableEq

/-! ### Regex scanning machinery (re.findall with simple patterns) -/

/-- Walk for `countMatchesB`: `skip` counts positions still covered by the
    last match (matches never overlap, as in `re.findall`). -/
def countMatchesBAux (m : Option Char → List Char → Option Nat) :
    Option Char → List Char → Nat → Nat
  | _, [], _ => 0
  | _, c :: t, Nat.succ k => countMatchesBAux m (some c) t k
  | prev, c :: t, 0 =>
    match m prev (c :: t) with
    | some k => 1 + countMatchesBAux m (some c) t (k - 1)
    | none => countMatchesBAux m (some c) t 0

/-- Generic non-overlapping left-to-right scan: `m prev s` reports the length
    of a match starting at `s` (`prev` is the character just before, for word
    boundaries); on a match the scan resumes after it. -/
def countMatchesB (m : Option Char → List Char → Option Nat)
    (prev : Option Char) (s : List Char) : Nat :=
  countMatchesBAux m prev s 0

/-- Walk for `collectMatches` (same skipping discipline). -/
def collectMatchesAux (m : List Char → Option (Nat × String)) :
    List Char → Nat → List String
  | [], _ => []
  | _ :: t, Nat.succ k => collectMatchesAux m t k
  | c :: t, 0 =>
    match m (c :: t) with
    | some (k, v) => v :: collectMatchesAux m t (k - 1)
    | none => collectMatchesAux m t 0

/-- Like `countMatchesB` but collecting a value from each match. -/
def collectMatches (m : List Char → Option (Nat × String))
    (s : List Char) : List String :=
  collectMatchesAux m s 0

def boundaryAfterAt (k : Nat) (s : List Char) : Bool :=
  match (s.drop k).head? with
  | none => true
  | some c => !(isWordChar c)

/-- First alternative (in order) that matches at the start of `s` with a word
    boundary after it. -/
def altMatchLen (alts : List (List Char)) (s : List Char) : Option Nat :=
  match alts with
  | [] => none
  | a :: rest =>
    if !a.isEmpty && a.isPrefixOf s && boundaryAfterAt a.length s then
      some a.length
    else altMatchLen rest s

/-- `len(re.findall(r'\b(alt1|alt2|...)\b', text))`. -/
def countWordAlts (alts : List String) (text : List Char) : Nat :=
  countMatchesB
    (fun prev s =>
      let boundary := match prev with
        | none => true
        | some p => !(isWordChar p)
      if boundary then altMatchLen (alts.map String.data) s else none)
    none text

/-! ### Citation analysis (analysis.py, analyze_citations) -/

/-- Regex `\([A-Za-z]+\s*et\s*al\.?\s*\d{4}\)` (on lowercased text),
    matched greedily without backtracking into the author-name letters. -/
def matchEtAlAt (s : List Char) : Option Nat :=
  match s with
  | '(' :: r0 =>
    let letters := r0.takeWhile isAsciiLetter
    if letters.isEmpty then none
    else
      let r1 := (r0.drop letters.length).dropWhile Char.isWhitespace
      match r1 with
      | 'e' :: 't' :: r2 =>
        let r3 := r2.dropWhile Char.isWhitespace
        match r3 with
        | 'a' :: 'l' :: r4 =>
          let r5 := match r4 with
            | '.' :: r => r
            | _ => r4
          let r6 := r5.dropWhile Char.isWhitespace
          if (r6.takeWhile Char.isDigit).length == 4 then
            match r6.drop 4 with
            | ')' :: r7 => some (s.length - r7.length)
            | _ => none
          else none
        | _ => none
      | _ => none
  | _ => none

/-- `\[?\d+\]?`. -/
def matchBracketNum (s : List Char) : Option Nat :=
  let (pre, r0) := match s with
    | '[' :: r => (1, r)
    | _ => (0, s)
  let digits := r0.takeWhile Char.isDigit
  if digits.isEmpty then none
  else
    let post := match r0.drop digits.length with
      | ']' :: _ => 1
      | _ => 0
    some (pre + digits.length + post)

/-- `according to [A-Z][^.]\x7b10,100\x7d\.` (on lowercased text). -/
def matchAccordingTo (s : List Char) : Option Nat :=
  if "according to ".data.isPrefixOf s then
    match s.drop 13 with
    | c :: r1 =>
      if isAsciiLetter c then
        let run := r1.takeWhile (fun ch => ch ≠ '.')
        if 10 ≤ run.length && run.length ≤ 100 && run.length < r1.length then
          some (13 + 1 + run.length + 1)
        else none
      else none
    | [] => none
  else none

/-- `study (by|from)` / `research (by|from)` (on lowercased text). -/
def matchKeyByFrom (key : List Char) (s : List Char) : Option Nat :=
  if key.isPrefixOf s then
    let r := s.drop key.length
    if "by".data.isPrefixOf r then some (key.length + 2)
    else if "from".data.isPrefixOf r then some (key.length + 4)
    else none
  else none

def analyze_citations (text : String) (soup : Option Soup) : CitationAnalysis :=
  if text = "" then ⟨0, 0, 0⟩
  else
    let lt := lowerChars text.data
    let citation_count : ℕ :=
      countMatchesB (fun _ s => matchEtAlAt s) none lt
      + countMatchesB (fun _ s => matchBracketNum s) none lt
      + countMatchesB (fun _ s => matchAccordingTo s) none lt
      + pyCount lt "source:".data
      + countMatchesB (fun _ s => matchKeyByFrom "study ".data s) none lt
      + countMatchesB (fun _ s => matchKeyByFrom "research ".data s) none lt
    let reference_sections : ℕ :=
      match soup with
      | some f =>
        countForest
          (fun _ a => classMatchesAlts ["reference", "citation", "bibliography"] a) f
      | none => 0
    ⟨(citation_count : ℚ), (reference_sections : ℚ),
      pymin 25 ((citation_count : ℚ) * 2 + (reference_sections : ℚ) * 5)⟩

/-! ### Keyword analysis (analysis.py, analyze_keywords) -/

/-- Lowercased alphabetic tokens of length at least `n`
    (`re.findall(r'\b[a-zA-Z]\x7bn,\x7d\b', text.lower())`). -/
def tokensMinLen (n : Nat) (text : String) : List String :=
  ((runsBy isAsciiLetter text.data).filter (fun r => n ≤ r.length)).map
    (fun r => (lowerChars r).asString)

def stop_words : List String :=
  ["the", "and", "for", "with", "that", "this", "from", "have", "were",
   "been", "their", "what"]

/-- Distinct elements in first-occurrence order (the iteration order of a
    Python Counter / dict built from the token stream). -/
def firstOccurrences (l : List String) : List String :=
  l.foldl (fun acc w => if acc.contains w then acc else acc ++ [w]) []

def analyze_keywords (text : String) : KeywordAnalysis :=
  if text = "" then ⟨[], 0, 0⟩
  else
    let words := tokensMinLen 5 text
    let meaningful := (firstOccurrences words).filter
      (fun w => !stop_words.contains w)
    let freqPairs := meaningful.map (fun w => (w, words.count w))
    let sorted := List.insertionSort (fun a b => b.2 ≤ a.2) freqPairs
    let top_keywords := sorted.take 10
    let total_words := words.length
    if total_words = 0 then ⟨top_keywords.map Prod.fst, 0, 0⟩
    else
      let keyword_density : ℚ :=
        ((top_keywords.map Prod.snd).sum : ℚ) / (total_words : ℚ)
      let score : ℚ :=
        if 1 ≤ keyword_density ∧ keyword_density ≤ 2 then 15
        else if 1/2 ≤ keyword_density ∧ keyword_density ≤ 3 then 10
        else 5
      ⟨top_keywords.map Prod.fst, pyRound2 (keyword_density * 100), score⟩

/-! ### Internal linking (analysis.py, analyze_internal_linking) -/

def isInternalHref (domain href : String) : Bool :=
  "/".data.isPrefixOf href.data || pyContains href.data domain.data

/-- hrefs of all anchors with an href attribute, in document order
    (`soup.find_all('a', href=True)`). -/
def anchorHrefs (f : Soup) : List String :=
  (collectForest (fun t a => t == "a" && (getAttr a "href").isSome) f).filterMap
    (fun nd =>
      match nd with
      | .elem _ a _ => getAttr a "href"
      | .text _ => none)

def analyze_internal_linking (soup : Option Soup) (domain : String) :
    InternalLinking :=
  match soup with
  | none => ⟨0, 0, 0⟩
  | some f =>
    let hrefs := anchorHrefs f
    let internal := hrefs.countP (fun h => isInternalHref domain h)
    let external := hrefs.countP (fun h => !isInternalHref domain h)
    let total := internal + external
    if total = 0 then ⟨(internal : ℚ), (external : ℚ), 0⟩
    else
      let ratio : ℚ := (internal : ℚ) / (total : ℚ)
      let score : ℚ := if 0.6 ≤ ratio then 15 else if 0.4 ≤ ratio then 10 else 5
      ⟨(internal : ℚ), (external : ℚ), score⟩

/-! ### Content freshness (analysis.py, analyze_content_freshness) -/

def boundaryBefore (prev : Option Char) : Bool :=
  match prev with
  | none => true
  | some p => !(isWordChar p)

/-- a slash-or-dash date `d\x7b1,2\x7d (slash or dash) d\x7b1,2\x7d (slash or dash) d\x7b4\x7d` with word boundaries. -/
def matchDateSlash (prev : Option Char) (s : List Char) : Option Nat :=
  if !boundaryBefore prev then none
  else
    let d1 := s.takeWhile Char.isDigit
    if d1.isEmpty || 2 < d1.length then none
    else
      match s.drop d1.length with
      | sep1 :: r1 =>
        if sep1 = '/' || sep1 = '-' then
          let d2 := r1.takeWhile Char.isDigit
          if d2.isEmpty || 2 < d2.length then none
          else
            match r1.drop d2.length with
            | sep2 :: r2 =>
              if sep2 = '/' || sep2 = '-' then
                let d3 := r2.takeWhile Char.isDigit
                if d3.length == 4 && boundaryAfterAt 4 r2 then
                  some (d1.length + 1 + d2.length + 1 + 4)
                else none
              else none
            | [] => none
        else none
      | [] => none

def monthAbbrevs : List String :=
  ["jan", "feb", "mar", "apr", "may", "jun", "jul", "aug", "sep", "oct",
   "nov", "dec"]

/-- month-name date `\b(Jan|...|Dec)[a-z]* \d\x7b1,2\x7d,? \d\x7b4\x7d\b`
    (on lowercased text). -/
def matchDateMonth (prev : Option Char) (s : List Char) : Option Nat :=
  if !boundaryBefore prev then none
  else if monthAbbrevs.any (fun m => m.data.isPrefixOf s) then
    let letters := s.takeWhile isAsciiLetter
    match s.drop letters.length with
    | ' ' :: r1 =>
      let d1 := r1.takeWhile Char.isDigit
      if d1.isEmpty || 2 < d1.length then none
      else
        let r2 := r1.drop d1.length
        let (commaLen, r3) := match r2 with
          | ',' :: r => (1, r)
          | _ => (0, r2)
        match r3 with
        | ' ' :: r4 =>
          if (r4.takeWhile Char.isDigit).length == 4 && boundaryAfterAt 4 r4 then
            some (letters.length + 1 + d1.length + commaLen + 1 + 4)
          else none
        | _ => none
    | _ => none
  else none

/-- ISO date `\b\d\x7b4\x7d-\d\x7b2\x7d-\d\x7b2\x7d\b`. -/
def matchDateIso (prev : Option Char) (s : List Char) : Option Nat :=
  if !boundaryBefore prev then none
  else if (s.takeWhile Char.isDigit).length == 4 then
    match s.drop 4 with
    | '-' :: r1 =>
      if (r1.takeWhile Char.isDigit).length == 2 then
        match r1.drop 2 with
        | '-' :: r2 =>
          if (r2.takeWhile Char.isDigit).length == 2 && boundaryAfterAt 2 r2 then
            some 10
          else none
        | _ => none
      else none
    | _ => none
  else none

def analyze_content_freshness (text : String) : ContentFreshness :=
  if text = "" then ⟨none, 0, 0⟩
  else
    let lt := lowerChars text.data
    let dates_found :=
      countMatchesB matchDateSlash none lt
      + countMatchesB matchDateMonth none lt
      + countMatchesB matchDateIso none lt
    if dates_found = 0 then ⟨none, 0, 0⟩
    else ⟨none, (dates_found : ℚ), pymin 10 ((dates_found : ℚ) * 2)⟩

/-! ### URL structure (analysis.py, analyze_url_structure) -/

def dropAfterFirst (s pat : List Char) : List Char :=
  if pat.isPrefixOf s then s.drop pat.length
  else
    match s with
    | [] => []
    | _ :: t => dropAfterFirst t pat

/-- Path component of a URL (models `urllib.parse.urlparse(url).path` for the
    usual scheme://host/path?query#fragment shapes). -/
def urlPath (url : String) : String :=
  let s := url.data
  let rest :=
    if pyContains s "://".data then
      (dropAfterFirst s "://".data).dropWhile (fun c => c ≠ '/')
    else s
  (rest.takeWhile (fun c => c ≠ '?' && c ≠ '#')).asString

def analyze_url_structure (url : String) : ℕ :=
  let p := (urlPath url).data
  let path_parts := runsBy (fun c => c ≠ '/') p
  (if path_parts.length ≤ 3 then 5 else 0)
  + (if pyContains p "-".data && !pyContains p "_".data then 5 else 0)
  + (if path_parts.any (fun part => 2 < part.length) then 5 else 0)

/-! ### Featured content and category organization (utils.py) -/

def find_featured_content (soup : Option Soup) : ℕ :=
  match soup with
  | none => 0
  | some f =>
    let indicators := ["featured", "popular", "trending", "recommended",
      "editor.pick", "most.read", "top.posts", "best.of"]
    min
      ((indicators.map
        (fun ind => countForest (fun _ a => classMatchesAlts [ind] a) f)).sum)
      5

def analyze_category_organization (soup : Option Soup) : ℕ :=
  match soup with
  | none => 0
  | some f =>
    let categories := countForest (fun _ a => classMatchesAlts ["category"] a) f
    let tags := countForest (fun _ a => classMatchesAlts ["tag"] a) f
    let filters :=
      countForest (fun _ a => classMatchesAlts ["filter", "sort"] a) f
    min (categories * 2) 10 + min (tags * 1) 5 + min (filters * 3) 10

/-! ### Skimming optimization (analysis.py, analyze_skimming_optimization) -/

def analyze_skimming_optimization (soup : Option Soup) : ℚ :=
  match soup with
  | none => 0
  | some f =>
    let headers := countForest (tagIn ["h1", "h2", "h3", "h4"]) f
    let lists := countForest (tagIn ["ul", "ol"]) f
    let emphasis := countForest (tagIn ["b", "strong", "i", "em"]) f
    let blockquotes := countForest (tagIn ["blockquote"]) f
    let images_with_alt :=
      countForest (fun t a => t == "img" && (getAttr a "alt").isSome) f
    pymin 40
      (pymin ((headers : ℚ) * 2) 20 + pymin ((lists : ℚ) * 3) 15
        + pymin ((emphasis : ℚ) * 0.5) 10 + pymin ((blockquotes : ℚ) * 2) 10
        + pymin (images_with_alt : ℚ) 5)

/-! ### Ad placement and autoplay media (analysis.py) -/

def analyze_ad_placement (soup : Option Soup) : ℕ :=
  match soup with
  | none => 0
  | some f =>
    let base :=
      match findForest (fun t _ => t == "body") f with
      | some body =>
        let first1000 := lowerChars ((renderNode body).data.take 1000)
        (if pyContains first1000 "ad".data then 10 else 0)
        + (if pyContains first1000 "banner".data then 10 else 0)
        + (if pyContains first1000 "popup".data then 10 else 0)
      | none => 0
    let areas :=
      collectForest (fun _ a => classMatchesAlts ["content", "article", "post"] a) f
    let areaAdd := 5 * areas.countP (fun nd =>
      let areaText := lowerChars (renderNode nd).data
      pyContains areaText "ad".data || pyContains areaText "banner".data)
    min (base + areaAdd) 30

def detect_autoplay_media (soup : Option Soup) : ℕ :=
  match soup with
  | none => 0
  | some f =>
    let autoplay_videos :=
      countForest (fun t a => t == "video" && (getAttr a "autoplay").isSome) f
    let autoplay_audio :=
      countForest (fun t a => t == "audio" && (getAttr a "autoplay").isSome) f
    min (autoplay_videos * 15 + autoplay_audio * 15) 30

/-! ### Design quality (analysis.py, analyze_design_quality) -/

/-- `re.search(key + r':\s*0', style)` for key margin/padding
    (style value already lowercased by the caller). -/
def keyColonZero (key : List Char) : List Char → Bool
  | [] => false
  | c :: t =>
    (key.isPrefixOf (c :: t) &&
      (match ((c :: t).drop key.length).dropWhile Char.isWhitespace with
       | '0' :: _ => true
       | _ => false))
    || keyColonZero key t

def styleHasZeroMarginPadding (st : String) : Bool :=
  keyColonZero "margin:".data (lowerChars st.data)
  || keyColonZero "padding:".data (lowerChars st.data)

/-- one match of `font-family:\s*([^;]+)` (case-sensitive). -/
def fontFamMatch (s : List Char) : Option (Nat × String) :=
  if "font-family:".data.isPrefixOf s then
    let r1 := (s.drop 12).dropWhile Char.isWhitespace
    let v := r1.takeWhile (fun c => c ≠ ';')
    if v.isEmpty then none
    else some ((s.length - r1.length) + v.length, v.asString)
  else none

def isHexLower (c : Char) : Bool :=
  c.isDigit || ('a' ≤ c && c ≤ 'f')

/-- one match of `color:\s*#([0-9a-f]\x7b6\x7d)` (on lowercased markup). -/
def colorHexMatch (s : List Char) : Option Nat :=
  if "color:".data.isPrefixOf s then
    let r1 := (s.drop 6).dropWhile Char.isWhitespace
    match r1 with
    | '#' :: r2 =>
      if 6 ≤ (r2.takeWhile isHexLower).length then
        some ((s.length - r1.length) + 1 + 6)
      else none
    | _ => none
  else none

def analyze_design_quality (soup : Option Soup) (html : String) :
    DesignMetrics :=
  match soup with
  | none => ⟨0, 0, 0, 0⟩
  | some f =>
    let crowded_elements := countForest
      (fun _ a =>
        match getAttr a "style" with
        | some st => styleHasZeroMarginPadding st
        | none => false) f
    let whitespace : ℚ := pymax 0 (10 - (crowded_elements : ℚ))
    let font_variety := (firstOccurrences (collectMatches fontFamMatch html.data)).length
    let typography : ℚ := pymin 10 ((font_variety : ℚ) * 2)
    let low_contrast :=
      countMatchesB (fun _ s => colorHexMatch s) none (lowerChars html.data)
    let contrast : ℚ := pymax 0 (10 - (low_contrast : ℚ) * 0.1)
    let heading_levels := (["h1", "h2", "h3", "h4", "h5", "h6"].filter
      (fun h => countForest (tagIn [h]) f != 0)).length
    ⟨whitespace, typography, contrast, pymin 10 ((heading_levels : ℚ) * 2)⟩

/-! ### Criterion scorers (scoring.py) -/

/-- scoring.py normalize_readability_scores: average, over the formulas with
    a positive value, of the formula score mapped to 0-100. -/
def normalize_readability_scores (rd : ReadabilityDetails) : ℚ :=
  let acc : ℚ × ℕ := (0, 0)
  let acc := if 0 < rd.flesch_reading_ease then
      (acc.1 + pymax 0 (pymin 100 rd.flesch_reading_ease), acc.2 + 1)
    else acc
  let acc := if 0 < rd.flesch_kincaid_grade then
      (acc.1 + pymax 0 (100 - rd.flesch_kincaid_grade * 5), acc.2 + 1)
    else acc
  let acc := if 0 < rd.gunning_fog then
      (acc.1 + pymax 0 (100 - rd.gunning_fog * 5), acc.2 + 1)
    else acc
  let acc := if 0 < rd.smog_index then
      (acc.1 + pymax 0 (100 - rd.smog_index * 5), acc.2 + 1)
    else acc
  let acc := if 0 < rd.automated_readability then
      (acc.1 + pymax 0 (100 - rd.automated_readability * 5), acc.2 + 1)
    else acc
  let acc := if 0 < rd.coleman_liau then
      (acc.1 + pymax 0 (100 - rd.coleman_liau * 5), acc.2 + 1)
    else acc
  if acc.2 ≠ 0 then acc.1 / (acc.2 : ℚ) else 50

/-- scoring.py score_readability.  The six textstat formulas are external
    collaborators and enter through `rd` (a formula that raised is 0 there,
    per the per-formula handlers); the outer exception fallback of
    lines 119-136 is unreachable in this embedding because nothing else in
    the function can raise. -/
def score_readability (text : String) (rd : ReadabilityDetails) : ℚ :=
  if text = "" ∨ (pyStrip text).length < 100 then 50
  else pymin 100 (pymax 0 (normalize_readability_scores rd))

def score_informativeness (text : String) (soup : Option Soup)
    (citation_analysis : CitationAnalysis) : ℚ :=
  match soup with
  | none => 0
  | some f =>
    if text = "" then 0
    else
      let word_count := (pySplit text).length
      let header_count := countForest (tagIn ["h1", "h2", "h3", "h4", "h5", "h6"]) f
      let image_count := countForest (tagIn ["img"]) f
      let link_count := countForest (tagIn ["a"]) f
      let depth_score : ℚ := pymin 30 ((word_count : ℚ) / 100)
      let structure_score : ℚ := pymin 25 ((header_count : ℚ) * 2)
      let media_score : ℚ := pymin 20 (((image_count : ℚ) + (link_count : ℚ)) * 1.5)
      let citation_score : ℚ := pymin 25 citation_analysis.citation_score
      pymin 100 (depth_score + structure_score + media_score + citation_score)

def positiveWordAlts : List String :=
  ["great", "excellent", "amazing", "love", "perfect", "wonderful", "good",
   "nice", "awesome"]

def negativeWordAlts : List String :=
  ["bad", "terrible", "awful", "hate", "worst", "horrible", "poor",
   "disappointing"]

def ctaWordAlts : List String :=
  ["click", "learn", "discover", "join", "subscribe", "download", "sign up",
   "get started"]

def score_engagement (text : String) (soup : Option Soup) : ℚ :=
  if text = "" then 0
  else
    let lt := lowerChars text.data
    let positive_words := countWordAlts positiveWordAlts lt
    let negative_words := countWordAlts negativeWordAlts lt
    let questions := pyCount text.data "?".data
    let exclamations := pyCount text.data "!".data
    let cta_words := countWordAlts ctaWordAlts lt
    let skimming_score := analyze_skimming_optimization soup
    let sentiment_score : ℚ :=
      pymax 0 (pymin 100 (50 + ((positive_words : ℚ) - (negative_words : ℚ)) * 3))
    let interaction_score : ℚ :=
      pymin 30 ((questions : ℚ) * 2 + (exclamations : ℚ) * 1.5 + (cta_words : ℚ) * 2)
    pymin 100 (sentiment_score + interaction_score + skimming_score)

def researchWordAlts : List String :=
  ["research", "study", "survey", "data", "analysis", "experiment", "finding"]

/-- the source pattern `\b(I|we|our|us|my|mine|ours)\b` is applied to
    `text.lower()`, so the capital-I alternative can never fire there. -/
def firstPersonAlts : List String :=
  ["I", "we", "our", "us", "my", "mine", "ours"]

def primaryResearchAlts : List String :=
  ["interview", "surveyed", "studied", "analyzed", "experimented", "observed"]

def score_uniqueness (text : String) : ℚ :=
  if text = "" then 0
  else
    let lt := lowerChars text.data
    let research_words := countWordAlts researchWordAlts lt
    let first_person := countWordAlts firstPersonAlts lt
    let words := tokensMinLen 4 text
    let unique_ratio : ℚ :=
      if words.isEmpty then 0
      else ((firstOccurrences words).length : ℚ) / (words.length : ℚ)
    let primary_research := countWordAlts primaryResearchAlts lt
    pymin 100
      (40 + pymin 20 ((research_words : ℚ) * 3)
        + pymin 15 ((first_person : ℚ) * 0.8)
        + pymin 15 (unique_ratio * 30)
        + pymin 10 ((primary_research : ℚ) * 2))

def score_discoverability (soup : Option Soup) : ℚ :=
  match soup with
  | none => 0
  | some f =>
    let has_search :=
      (findForest (fun t a => t == "input" && getAttr a "type" == some "search") f).isSome
    let nav_count := countForest (tagIn ["nav"]) f
    let breadcrumbs :=
      (findForest (fun _ a => classMatchesAlts ["breadcrumb"] a) f).isSome
    let sitemap :=
      (findForest
        (fun t a =>
          t == "a" &&
            (match getAttr a "href" with
             | some h => wildSearch "sitemap".data (lowerChars h.data)
             | none => false)) f).isSome
    let featured_posts := find_featured_content (some f)
    let category_organization := analyze_category_organization (some f)
    pymin 100
      ((if has_search then (15 : ℚ) else 5) + pymin 20 ((nav_count : ℚ) * 5)
        + (if breadcrumbs then (15 : ℚ) else 0)
        + (if sitemap then (10 : ℚ) else 0)
        + pymin 15 ((featured_posts : ℚ) * 3)
        + pymin 25 (category_organization : ℚ))

def ad_indicators : List String :=
  ["googleads", "doubleclick", "adsbygoogle", "advertisement", "banner-ad",
   "popup", "modal", "overlay", "ad-container", "ad-unit", "ad-slot",
   "ad-wrapper"]

/-- total `html.lower().count(indicator)` over the 12 ad indicators. -/
def adIndicatorHits (html : String) : ℕ :=
  (ad_indicators.map (fun ind => pyCount (lowerChars html.data) ind.data)).sum

def score_ad_experience (html : String) (soup : Option Soup) : ℚ :=
  if html = "" then 0
  else
    let ad_score := adIndicatorHits html
    let placement_score := analyze_ad_placement soup
    let autoplay_score := detect_autoplay_media soup
    pymin 100
      (pymax 0
        (100 - (ad_score : ℚ) * 5 - (placement_score : ℚ) - (autoplay_score : ℚ)))

/-- scoring.py score_social_integration; `none` models the falsy empty dict. -/
def score_social_integration (social_data : Option SocialData) : ℚ :=
  match social_data with
  | none => 0
  | some sd =>
    let platform_count : ℕ :=
      [sd.facebook, sd.twitter, sd.instagram, sd.linkedin, sd.youtube,
        sd.pinterest, sd.tiktok].countP id
    pymin 100
      ((platform_count : ℚ) * 10 + sd.sharing_buttons * 3
        + pymin (sd.social_proof.share_counts * 2) 10
        + pymin (sd.social_proof.follower_counts * 2) 10
        + pymin (sd.social_proof.testimonials * 3) 15)

def score_layout_quality (soup : Option Soup) (mobile_data : MobileData)
    (security_data : SecurityData) (design_metrics : DesignMetrics) : ℚ :=
  let score : ℚ := 40
  let score := score + (if mobile_data.has_viewport then (10 : ℚ) else 0)
  let score := score + (if mobile_data.handheld_friendly then (5 : ℚ) else 0)
  let score := score + (if mobile_data.touch_optimized then (5 : ℚ) else 0)
  let score := score + (if security_data.https then (10 : ℚ) else 0)
  let score := score +
    (match soup with
     | some f => if countForest (tagIn ["h1"]) f = 1 then (5 : ℚ) else 0
     | none => 0)
  let score := score + design_metrics.whitespace_score
    + design_metrics.typography_score + design_metrics.color_contrast_score
  pymin 100 score

def score_seo_keywords (soup : Option Soup) (seo_data : SeoData)
    (keyword_analysis : KeywordAnalysis) (internal_linking : InternalLinking)
    (content_freshness : ContentFreshness) (url : String) : ℚ :=
  match soup with
  | none => 0
  | some f =>
    let titleAdd : ℚ :=
      match findForest (fun t _ => t == "title") f with
      | some nd =>
        match nodeString nd with
        | some ts => if 30 ≤ ts.length ∧ ts.length ≤ 60 then 10 else 0
        | none => 0
      | none => 0
    let metaAdd : ℚ :=
      match findForest
          (fun t a => t == "meta" && getAttr a "name" == some "description") f with
      | some (Node.elem _ a _) =>
        match getAttr a "content" with
        | some c => if c ≠ "" ∧ 120 ≤ c.length ∧ c.length ≤ 160 then 10 else 0
        | none => 0
      | _ => 0
    let h1Add : ℚ := if countForest (tagIn ["h1"]) f = 1 then 5 else 0
    let idxAdd : ℚ := if seo_data.indexed then 10 else 0
    let schema_markup := countForest
      (fun t a => t == "script" && getAttr a "type" == some "application/ld+json") f
    let url_score := analyze_url_structure url
    pymin 100
      (titleAdd + metaAdd + h1Add + idxAdd + keyword_analysis.keyword_score
        + internal_linking.linking_score + content_freshness.freshness_score
        + pymin ((schema_markup : ℚ) * 3) 10 + (url_score : ℚ) + 15)

/-- core.py analyze, lines 192-295: the extractor calls and the `scores`
    dict literal.  The external collaborators (readability formulas, mobile /
    security / SEO / social data collection) enter as parameters. -/
def analyzeScores (text html url domain : String) (soup : Option Soup)
    (rd : ReadabilityDetails) (mobile_data : MobileData)
    (security_data : SecurityData) (seo_data : SeoData)
    (social_data : Option SocialData) : ScoreSet :=
  let design_metrics := analyze_design_quality soup html
  let content_freshness := analyze_content_freshness text
  let keyword_analysis := analyze_keywords text
  let internal_linking := analyze_internal_linking soup domain
  let citation_analysis := analyze_citations text soup
  { readability := score_readability text rd
    informativeness := score_informativeness text soup citation_analysis
    engagement := score_engagement text soup
    uniqueness := score_uniqueness text
    discoverability := score_discoverability soup
    ad_experience := score_ad_experience html soup
    social_integration := score_social_integration social_data
    layout_quality :=
      score_layout_quality soup mobile_data security_data design_metrics
    seo_keywords :=
      score_seo_keywords soup seo_data keyword_analysis internal_linking
        content_freshness url }

/-! ### Recommendation engine (recommendations.py) -/

structure ContentStats where
  word_count : ℚ
  header_count : ℚ
  image_count : ℚ
  link_count : ℚ
deriving DecidableEq

structure PerfData where
  load_time : ℚ
deriving DecidableEq

/-- The readability_details entry as the recommendation engine reads it: it
    only fetches schema_markup_count, a key core.py never writes (so it is
    0 in the pipeline). -/
structure RdSchema where
  schema_markup_count : ℚ
deriving DecidableEq

/-- The free_data_sources mapping as read by generate_recommendations; each
    entry is an Option because the engine defaults every missing sub-dict
    (for performance, `none` covers both a missing and a falsy empty dict). -/
structure FreeData where
  keyword_analysis : Option KeywordAnalysis
  internal_linking : Option InternalLinking
  security : Option SecurityData
  citation_analysis : Option CitationAnalysis
  content_stats : Option ContentStats
  mobile : Option MobileData
  seo : Option SeoData
  readability_details : Option RdSchema
  performance : Option PerfData
deriving DecidableEq

/-- Python "{score:.1f}" (one decimal, round half to even). -/
def fmt1 (x : ℚ) : String :=
  let n := pyRound (x * 10)
  if n < 0 then
    "-" ++ toString ((-n).toNat / 10) ++ "." ++ toString ((-n).toNat % 10)
  else
    toString (n.toNat / 10) ++ "." ++ toString (n.toNat % 10)

/-- recommendations.py _get_priority_and_emoji. -/
def priorityAndEmoji (score : ℚ) : String × String :=
  if score < 50 then ("🔴 CRITICAL", "🔴")
  else if score < 70 then ("🟠 HIGH", "🟠")
  else if score < 85 then ("🟡 MEDIUM", "🟡")
  else if score < 95 then ("🟢 LOW", "🟢")
  else ("✅ EXCELLENT", "✅")

/-- recommendations.py _get_criterion_recommendations: one tier-worded
    message per known criterion, none for unknown criteria.  The free_data
    parameter is accepted and unused, as in the source. -/
def getCriterionRecommendations (criterion : String) (score : ℚ)
    (_free_data : FreeData) : List String :=
  let priority := (priorityAndEmoji score).1
  if criterion = "readability" then
    if score < 50 then
      [priority ++ ": Readability is poor (" ++ fmt1 score ++ "/100) - drastically simplify language, use 10-15 word sentences"]
    else if score < 70 then
      [priority ++ ": Improve readability (" ++ fmt1 score ++ "/100) - use shorter sentences and simpler vocabulary"]
    else if score < 85 then
      [priority ++ ": Good readability (" ++ fmt1 score ++ "/100) but can improve - aim for 8th grade reading level"]
    else if score < 95 then
      [priority ++ ": Readability is very good (" ++ fmt1 score ++ "/100) - minor tweaks to complex sentences recommended"]
    else
      [priority ++ ": Excellent readability (" ++ fmt1 score ++ "/100) - maintain current writing style"]
  else if criterion = "informativeness" then
    if score < 50 then
      [priority ++ ": Content lacks depth (" ++ fmt1 score ++ "/100) - add 1000+ words, 10+ headers, citations, and media"]
    else if score < 70 then
      [priority ++ ": Add more depth to content (" ++ fmt1 score ++ "/100) - include citations, images, and structured headers"]
    else if score < 85 then
      [priority ++ ": Content is informative (" ++ fmt1 score ++ "/100) - consider adding more expert citations or case studies"]
    else if score < 95 then
      [priority ++ ": Very informative content (" ++ fmt1 score ++ "/100) - could add 1-2 more visual aids"]
    else
      [priority ++ ": Exceptionally comprehensive content (" ++ fmt1 score ++ "/100) - keep up the great work"]
  else if criterion = "engagement" then
    if score < 50 then
      [priority ++ ": Content is not engaging (" ++ fmt1 score ++ "/100) - add questions, CTAs, bullet points, and emotional language"]
    else if score < 70 then
      [priority ++ ": Improve engagement (" ++ fmt1 score ++ "/100) - add interactive elements, questions, and better formatting"]
    else if score < 85 then
      [priority ++ ": Good engagement (" ++ fmt1 score ++ "/100) - add 2-3 more questions or CTAs for better interaction"]
    else if score < 95 then
      [priority ++ ": Very engaging content (" ++ fmt1 score ++ "/100) - consider adding one more call-to-action"]
    else
      [priority ++ ": Highly engaging content (" ++ fmt1 score ++ "/100) - excellent use of interactive elements"]
  else if criterion = "uniqueness" then
    if score < 50 then
      [priority ++ ": Content lacks originality (" ++ fmt1 score ++ "/100) - add personal experiences, original research, or unique insights"]
    else if score < 70 then
      [priority ++ ": Improve uniqueness (" ++ fmt1 score ++ "/100) - include more original research and personal perspectives"]
    else if score < 85 then
      [priority ++ ": Content is fairly unique (" ++ fmt1 score ++ "/100) - consider adding original data or case studies"]
    else if score < 95 then
      [priority ++ ": Good originality (" ++ fmt1 score ++ "/100) - well done with personal perspective"]
    else
      [priority ++ ": Highly original content (" ++ fmt1 score ++ "/100) - excellent unique insights"]
  else if criterion = "discoverability" then
    if score < 50 then
      [priority ++ ": Poor navigation (" ++ fmt1 score ++ "/100) - add search, breadcrumbs, sitemap, and category organization"]
    else if score < 70 then
      [priority ++ ": Improve navigation (" ++ fmt1 score ++ "/100) - add search functionality and breadcrumbs"]
    else if score < 85 then
      [priority ++ ": Navigation is good (" ++ fmt1 score ++ "/100) - consider adding a sitemap or featured posts section"]
    else if score < 95 then
      [priority ++ ": Very good navigation (" ++ fmt1 score ++ "/100) - minor improvements to category organization possible"]
    else
      [priority ++ ": Excellent navigation structure (" ++ fmt1 score ++ "/100) - easy to discover content"]
  else if criterion = "ad_experience" then
    if score < 50 then
      [priority ++ ": Too many intrusive ads (" ++ fmt1 score ++ "/100) - remove 80%+ of ads, especially popups and modals"]
    else if score < 70 then
      [priority ++ ": Ad experience needs improvement (" ++ fmt1 score ++ "/100) - reduce ad density and remove popups"]
    else if score < 85 then
      [priority ++ ": Ad placement acceptable (" ++ fmt1 score ++ "/100) - remove 2-3 more ad units for better UX"]
    else if score < 95 then
      [priority ++ ": Good ad balance (" ++ fmt1 score ++ "/100) - consider removing one more ad for optimal experience"]
    else
      [priority ++ ": Excellent ad experience (" ++ fmt1 score ++ "/100) - non-intrusive advertising"]
  else if criterion = "social_integration" then
    if score < 50 then
      [priority ++ ": Poor social integration (" ++ fmt1 score ++ "/100) - add sharing buttons for 5-7 platforms"]
    else if score < 70 then
      [priority ++ ": Improve social features (" ++ fmt1 score ++ "/100) - add more social sharing options and platforms"]
    else if score < 85 then
      [priority ++ ": Good social presence (" ++ fmt1 score ++ "/100) - add 1-2 more platforms or share counts"]
    else if score < 95 then
      [priority ++ ": Strong social integration (" ++ fmt1 score ++ "/100) - consider displaying share counts"]
    else
      [priority ++ ": Excellent social integration (" ++ fmt1 score ++ "/100) - comprehensive social features"]
  else if criterion = "layout_quality" then
    if score < 50 then
      [priority ++ ": Layout needs major work (" ++ fmt1 score ++ "/100) - enable HTTPS, add viewport tag, optimize for mobile"]
    else if score < 70 then
      [priority ++ ": Improve layout and design (" ++ fmt1 score ++ "/100) - focus on mobile responsiveness and typography"]
    else if score < 85 then
      [priority ++ ": Good layout (" ++ fmt1 score ++ "/100) - improve whitespace or color contrast for better readability"]
    else if score < 95 then
      [priority ++ ": Very good layout (" ++ fmt1 score ++ "/100) - minor design refinements recommended"]
    else
      [priority ++ ": Excellent layout and design (" ++ fmt1 score ++ "/100) - professional appearance"]
  else if criterion = "seo_keywords" then
    if score < 50 then
      [priority ++ ": Poor SEO optimization (" ++ fmt1 score ++ "/100) - fix title length, meta description, add schema markup"]
    else if score < 70 then
      [priority ++ ": SEO needs improvement (" ++ fmt1 score ++ "/100) - optimize title, meta tags, and keyword strategy"]
    else if score < 85 then
      [priority ++ ": SEO is good (" ++ fmt1 score ++ "/100) - fine-tune keyword density or add more internal links"]
    else if score < 95 then
      [priority ++ ": Very good SEO (" ++ fmt1 score ++ "/100) - consider adding more schema markup"]
    else
      [priority ++ ": Excellent SEO optimization (" ++ fmt1 score ++ "/100) - well-optimized content"]
  else []

/-- recommendations.py _get_data_driven_recommendations (the scores
    parameter is accepted and unused, as in the source). -/
def getDataDrivenRecommendations (free_data : FreeData)
    (_scores : List (String × ℚ)) : List String :=
  let kd := (free_data.keyword_analysis.map
    (fun d => d.keyword_density)).getD 0
  let r1 : List String :=
    if kd < 0.5 then
      ["🟠 HIGH: Keyword density too low (< 0.5%) - increase to 1-2% for better SEO"]
    else if kd < 1.0 then
      ["🟡 MEDIUM: Keyword density is low (< 1%) - aim for 1-2% for optimal SEO"]
    else if kd > 3.0 then
      ["🟡 MEDIUM: Keyword density too high (> 3%) - reduce to avoid keyword stuffing penalty"]
    else if kd > 2.5 then
      ["🟢 LOW: Keyword density is slightly high (> 2.5%) - consider reducing slightly"]
    else []
  let il := (free_data.internal_linking.map
    (fun d => d.internal_links)).getD 0
  let r2 : List String :=
    if il < 3 then
      ["🔴 CRITICAL: Very few internal links (< 3) - add 10-15 internal links for better navigation and SEO"]
    else if il < 5 then
      ["🟠 HIGH: Low internal links (< 5) - add 5-10 more for better site structure"]
    else if il < 10 then
      ["🟡 MEDIUM: Could use more internal links (< 10) - add 3-5 more to related content"]
    else if il > 50 then
      ["🟢 LOW: Many internal links (> 50) - ensure they\x27re all relevant and valuable"]
    else []
  let el := (free_data.internal_linking.map
    (fun d => d.external_links)).getD 0
  let r3 : List String :=
    if el < 2 then
      ["🟡 MEDIUM: Add 3-5 external links to authoritative sources for credibility"]
    else if el > 30 then
      ["🟢 LOW: Many external links (> 30) - ensure all are high-quality and relevant"]
    else []
  let r4 : List String :=
    if !((free_data.security.map (fun d => d.https)).getD false) then
      ["🔴 CRITICAL: Site not using HTTPS - implement SSL certificate immediately for security and SEO"]
    else []
  let cc := (free_data.citation_analysis.map
    (fun d => d.citation_count)).getD 0
  let r5 : List String :=
    if cc < 3 then
      ["🟠 HIGH: Few citations found (< 3) - add 5-10 references to improve credibility"]
    else if cc < 5 then
      ["🟡 MEDIUM: Add 2-3 more citations for better authority"]
    else if cc > 20 then
      ["🟢 LOW: Excellent use of citations (> 20) - well-researched content"]
    else []
  let wc := (free_data.content_stats.map (fun d => d.word_count)).getD 0
  let r6 : List String :=
    if wc < 300 then
      ["🔴 CRITICAL: Content too short (< 300 words) - expand to at least 1000 words for blog posts"]
    else if wc < 600 then
      ["🟠 HIGH: Content is short (< 600 words) - aim for 1000-2500 words for better depth"]
    else if wc < 1000 then
      ["🟡 MEDIUM: Content could be longer (< 1000 words) - add 300-500 more words for comprehensive coverage"]
    else if wc > 3000 then
      ["🟢 LOW: Long-form content (> 3000 words) - ensure it\x27s well-structured with headers and breaks"]
    else []
  let hc := (free_data.content_stats.map (fun d => d.header_count)).getD 0
  let r7 : List String :=
    if hc < 3 then
      ["🟠 HIGH: Too few headers (< 3) - add 5-10 headers (H2, H3) for better structure"]
    else if hc < 5 then
      ["🟡 MEDIUM: Add 2-3 more headers for better content organization"]
    else if hc > 20 then
      ["🟢 LOW: Many headers (> 20) - ensure hierarchy is logical (H2 → H3 → H4)"]
    else []
  let ic := (free_data.content_stats.map (fun d => d.image_count)).getD 0
  let r8 : List String :=
    if ic < 1 then
      ["🟠 HIGH: No images found - add 3-5 relevant images for visual appeal"]
    else if ic < 3 then
      ["🟡 MEDIUM: Add 2-3 more images to enhance visual engagement"]
    else if ic > 20 then
      ["🟢 LOW: Many images (> 20) - ensure all have alt text and are optimized for web"]
    else []
  let r9 : List String :=
    (if !((free_data.mobile.map (fun d => d.has_viewport)).getD false) then
      ["🔴 CRITICAL: Missing viewport meta tag - add for mobile optimization"]
    else []) ++
    (if !((free_data.mobile.map (fun d => d.handheld_friendly)).getD false) then
      ["🟡 MEDIUM: Improve mobile-friendliness - test on mobile devices and fix issues"]
    else [])
  let r10 : List String :=
    if free_data.seo.isSome then
      let sc := (free_data.readability_details.map
        (fun d => d.schema_markup_count)).getD 0
      if sc = 0 then
        ["🟡 MEDIUM: No schema markup found - add JSON-LD structured data for better rich snippets"]
      else if sc = 1 then
        ["🟢 LOW: Good start with schema markup - consider adding more types (Article, BreadcrumbList, etc.)"]
      else []
    else []
  let r11 : List String :=
    match free_data.performance with
    | some pd =>
      if pd.load_time > 5 then
        ["🔴 CRITICAL: Page load time is very slow (> 5s) - optimize images, minify CSS/JS, use CDN"]
      else if pd.load_time > 3 then
        ["🟠 HIGH: Page load time is slow (> 3s) - optimize images and enable caching"]
      else if pd.load_time > 2 then
        ["🟡 MEDIUM: Page load time could be faster (> 2s) - minor optimizations recommended"]
      else if pd.load_time < 1 then
        ["🟢 LOW: Excellent load time (< 1s) - great performance"]
      else []
    | none => []
  r1 ++ r2 ++ r3 ++ r4 ++ r5 ++ r6 ++ r7 ++ r8 ++ r9 ++ r10 ++ r11

/-- recommendations.py generate_recommendations lines 22-33: criteria sorted
    by score ascending (stably), one message each, then the data-driven
    messages. -/
def mergedRecommendations (scores : List (String × ℚ))
    (free_data : FreeData) : List String :=
  let sorted_scores := List.insertionSort (fun a b => a.2 ≤ b.2) scores
  (sorted_scores.flatMap
      (fun kv => getCriterionRecommendations kv.1 kv.2 free_data))
    ++ getDataDrivenRecommendations free_data scores

/-- recommendations.py line 36: the priority_order dict with default 5. -/
def priority_order (tier : String) : ℕ :=
  if tier = "🔴 CRITICAL" then 0
  else if tier = "🟠 HIGH" then 1
  else if tier = "🟡 MEDIUM" then 2
  else if tier = "🟢 LOW" then 3
  else if tier = "✅ EXCELLENT" then 4
  else 5

/-- Python x.split(':')[0] (everything before the first colon). -/
def splitColonHead (s : String) : String :=
  (s.data.takeWhile (fun c => c ≠ ':')).asString

/-- The sort key of recommendations.py line 37. -/
def recKey (s : String) : ℕ := priority_order (splitColonHead s)

/-- recommendations.py generate_recommendations: merge, then a stable sort
    by priority tier (Python list.sort is stable; a stable insertion sort
    produces the identical list).  No truncation is applied. -/
def generate_recommendations (scores : List (String × ℚ))
    (free_data : FreeData) : List String :=
  List.insertionSort (fun a b => recKey a ≤ recKey b)
    (mergedRecommendations scores free_data)

/-! ### Named constants and concrete inputs used in the theorems -/

def rdZero : ReadabilityDetails := ⟨0, 0, 0, 0, 0, 0⟩

def mobileZero : MobileData := ⟨false, false, false⟩

def securityZero : SecurityData := ⟨false⟩

def seoZero : SeoData := ⟨false⟩

def designZero : DesignMetrics := ⟨0, 0, 0, 0⟩

/-- An adversarial design dict: a negative whitespace_score. -/
def designNeg : DesignMetrics := ⟨-100, 0, 0, 0⟩

/-- An adversarial citation dict: a negative citation_score. -/
def citationNeg : CitationAnalysis := ⟨0, 0, -200⟩

def divSoup : Soup := [Node.elem "div" [] []]

/-- HTML with 3 popup hits and 2 adsbygoogle hits, no other ad indicators. -/
def adHtml : String := "popup popup popup adsbygoogle adsbygoogle"

/-- A DOM with 6 internal anchors (5 root-relative, 1 containing the
    domain) and 4 external anchors. -/
def linkSoup : Soup :=
  [Node.elem "div" []
    [Node.elem "a" [("href", "/a")] [], Node.elem "a" [("href", "/b")] [],
     Node.elem "a" [("href", "/c")] [], Node.elem "a" [("href", "/d")] [],
     Node.elem "a" [("href", "/e")] [],
     Node.elem "a" [("href", "https://example.com/x")] [],
     Node.elem "a" [("href", "https://other.org/1")] [],
     Node.elem "a" [("href", "https://other.org/2")] [],
     Node.elem "a" [("href", "https://other.org/3")] [],
     Node.elem "a" [("href", "https://other.org/4")] []]]

/-- Exactly 100 five-letter tokens: 85 stop-word tokens ("their") plus 10
    distinct meaningful words totalling 15 occurrences, so the top-10
    non-stop-word frequencies sum to 15 out of 100 tokens. -/
def kwText : String :=
  String.intercalate " "
    (List.replicate 85 "their" ++
      ["alpha", "alpha", "bravo", "bravo", "carat", "carat", "delta", "delta",
       "eagle", "eagle", "fjord", "gamma", "hotel", "india", "julie"])

/-- free_data with every sub-dict missing/empty. -/
def emptyFreeData : FreeData :=
  ⟨none, none, none, none, none, none, none, none, none⟩

/-- All nine criteria scored 0. -/
def demoScores : List (String × ℚ) :=
  [("readability", 0), ("informativeness", 0), ("engagement", 0),
   ("uniqueness", 0), ("discoverability", 0), ("ad_experience", 0),
   ("social_integration", 0), ("layout_quality", 0), ("seo_keywords", 0)]

/-- Exactly 200 five-letter tokens: 197 stop-word tokens and 3 distinct
    meaningful words once each, so the keyword percentage is 1.5 (inside the
    claimed [1,2] band) while the raw fraction is 0.015. -/
def kwText2 : String :=
  String.intercalate " "
    (List.replicate 197 "their" ++ ["alpha", "bravo", "crane"])

/-- A score lies in the documented [0,100] band. -/
def inRange (x : ℚ) : Prop := 0 ≤ x ∧ x ≤ 100

/-- The numeric entries of a social dict are nonnegative (true of everything
    data_collection.get_social_metrics_free can produce). -/
def SocialNonneg : Option SocialData → Prop
  | none => True
  | some sd =>
    0 ≤ sd.sharing_buttons ∧ 0 ≤ sd.social_proof.share_counts
      ∧ 0 ≤ sd.social_proof.follower_counts ∧ 0 ≤ sd.social_proof.testimonials

/-- The top-10 keyword frequencies of analyze_keywords (counts of the ten
    most frequent non-stop-word tokens). -/
def topKeywordCounts (text : String) : List ℕ :=
  let words := tokensMinLen 5 text
  let meaningful := (firstOccurrences words).filter
    (fun w => !stop_words.contains w)
  ((List.insertionSort (fun a b => b.2 ≤ a.2)
      (meaningful.map (fun w => (w, words.count w)))).take 10).map Prod.snd

/-- The raw top-10-frequency fraction that analyze_keywords compares against
    its thresholds (sum of top-10 frequencies over the token count, NOT
    multiplied by 100). -/
def kwFraction (text : String) : ℚ :=
  ((topKeywordCounts text).sum : ℚ) / ((tokensMinLen 5 text).length : ℚ)

/-! ## Theorems -/

theorem pyRound_close (x : ℚ) : |((pyRound x : ℤ) : ℚ) - x| ≤ 1/2 := by
  have hadd : ((⌊x⌋ : ℤ) : ℚ) + Int.fract x = x := Int.floor_add_fract x
  have h0 : 0 ≤ Int.fract x := Int.fract_nonneg x
  have h1 : Int.fract x < 1 := Int.fract_lt_one x
  unfold pyRound
  split_ifs with hlt hgt hev
  · rw [abs_le]; constructor <;> linarith
  · rw [abs_le]; push_cast; constructor <;> linarith
  · have heq : Int.fract x = 1/2 := le_antisymm (not_lt.mp hgt) (not_lt.mp hlt)
    rw [abs_le]; constructor <;> linarith
  · have heq : Int.fract x = 1/2 := le_antisymm (not_lt.mp hgt) (not_lt.mp hlt)
    rw [abs_le]; push_cast; constructor <;> linarith

theorem pyRound2_close (x : ℚ) : |pyRound2 x - x| ≤ 1/200 := by
  have h := pyRound_close (x * 100)
  rw [abs_le] at h ⊢
  unfold pyRound2
  constructor <;> nlinarith [h.1, h.2]

theorem pymin_eq_min (a b : ℚ) : pymin a b = min a b := (min_def a b).symm

theorem pymax_eq_max (a b : ℚ) : pymax a b = max a b := (max_def a b).symm

/-! ### Theorems for C1 and C2 -/

/-- C1: for every ScoreSet, the overall score is the weighted sum over the 9
    criteria rounded to 2 decimals, and it agrees within 0.1 with the sum of
    the per-criterion weighted contributions (the rounding error is in fact
    at most 1/200). -/
theorem overall_score_matches_weighted_sum (s : ScoreSet) :
    overall_score s = pyRound2 (contributions s).sum
      ∧ |overall_score s - (contributions s).sum| ≤ 0.1 := by
  refine ⟨rfl, ?_⟩
  have h := pyRound2_close (contributions s).sum
  have h10 : (1 : ℚ)/200 ≤ 0.1 := by norm_num
  exact le_trans h h10

/-- C2: the shipped SCORING_WEIGHTS has 9 positive weights whose sum is
    within 0.001 of 1.0, so the load-time assertion in constants.py never
    fires. -/
theorem scoring_weights_assert_holds :
    weights_sum_ok ∧ SCORING_WEIGHTS.length = 9
      ∧ List.Forall (fun p => 0 < p.2) SCORING_WEIGHTS := by
  refine ⟨?_, rfl, ?_⟩
  · unfold weights_sum_ok SCORING_WEIGHTS
    norm_num
  · unfold SCORING_WEIGHTS
    norm_num [List.Forall]

/-! ### Helper lemmas about pymin / pymax and nonnegativity -/

theorem pymin_le_left (a b : ℚ) : pymin a b ≤ a := by
  rw [pymin_eq_min]; exact min_le_left a b

theorem le_pymin {a b c : ℚ} (h1 : c ≤ a) (h2 : c ≤ b) : c ≤ pymin a b := by
  rw [pymin_eq_min]; exact le_min h1 h2

theorem pymax_le {a b c : ℚ} (h1 : a ≤ c) (h2 : b ≤ c) : pymax a b ≤ c := by
  rw [pymax_eq_max]; exact max_le h1 h2

theorem le_pymax_left (a b : ℚ) : a ≤ pymax a b := by
  rw [pymax_eq_max]; exact le_max_left a b

theorem pymin_nonneg {a b : ℚ} (ha : 0 ≤ a) (hb : 0 ≤ b) : 0 ≤ pymin a b :=
  le_pymin ha hb

theorem clamp_inRange (x : ℚ) : inRange (pymin 100 (pymax 0 x)) :=
  ⟨le_pymin (by norm_num) (le_pymax_left 0 x), pymin_le_left _ _⟩

theorem pymin100_inRange {x : ℚ} (hx : 0 ≤ x) : inRange (pymin 100 x) :=
  ⟨le_pymin (by norm_num) hx, pymin_le_left _ _⟩

theorem ite_nonneg (c : Prop) [Decidable c] {a b : ℚ} (ha : 0 ≤ a)
    (hb : 0 ≤ b) : 0 ≤ if c then a else b := by
  split_ifs <;> assumption

theorem natmul_nonneg (n : ℕ) {c : ℚ} (hc : 0 ≤ c) : 0 ≤ (n : ℚ) * c :=
  mul_nonneg (Nat.cast_nonneg n) hc

theorem skimming_nonneg (soup : Option Soup) :
    0 ≤ analyze_skimming_optimization soup := by
  cases soup with
  | none => simp [analyze_skimming_optimization]
  | some f =>
    simp only [analyze_skimming_optimization]
    refine pymin_nonneg (by norm_num) ?_
    have h1 := pymin_nonneg (natmul_nonneg (countForest (tagIn ["h1", "h2", "h3", "h4"]) f) (by norm_num : (0:ℚ) ≤ 2)) (by norm_num : (0:ℚ) ≤ 20)
    have h2 := pymin_nonneg (natmul_nonneg (countForest (tagIn ["ul", "ol"]) f) (by norm_num : (0:ℚ) ≤ 3)) (by norm_num : (0:ℚ) ≤ 15)
    have h3 := pymin_nonneg (natmul_nonneg (countForest (tagIn ["b", "strong", "i", "em"]) f) (by norm_num : (0:ℚ) ≤ 0.5)) (by norm_num : (0:ℚ) ≤ 10)
    have h4 := pymin_nonneg (natmul_nonneg (countForest (tagIn ["blockquote"]) f) (by norm_num : (0:ℚ) ≤ 2)) (by norm_num : (0:ℚ) ≤ 10)
    have h5 := pymin_nonneg (Nat.cast_nonneg (countForest (fun t a => t == "img" && (getAttr a "alt").isSome) f) : (0:ℚ) ≤ _) (by norm_num : (0:ℚ) ≤ 5)
    linarith

/-! ### C6: empty-input defaults -/

/-- C6: with empty text and an absent DOM, every scorer returns its
    documented default (readability 50, informativeness 0, engagement 0,
    uniqueness 0, discoverability 0) and every extractor returns its
    zero/default dictionary, with no failure possible in the embedding. -/
theorem empty_input_defaults :
    (∀ rd : ReadabilityDetails, score_readability "" rd = 50)
  ∧ score_informativeness "" none (analyze_citations "" none) = 0
  ∧ score_engagement "" none = 0
  ∧ score_uniqueness "" = 0
  ∧ score_discoverability none = 0
  ∧ analyze_citations "" none = ⟨0, 0, 0⟩
  ∧ analyze_skimming_optimization none = 0
  ∧ analyze_keywords "" = ⟨[], 0, 0⟩
  ∧ analyze_internal_linking none "" = ⟨0, 0, 0⟩
  ∧ analyze_content_freshness "" = ⟨none, 0, 0⟩
  ∧ analyze_design_quality none "" = ⟨0, 0, 0, 0⟩
  ∧ analyze_ad_placement none = 0
  ∧ detect_autoplay_media none = 0
  ∧ find_featured_content none = 0
  ∧ analyze_category_organization none = 0 := by
  refine ⟨fun rd => rfl, ?_⟩
  decide

/-! ### C10: hard zeros for empty HTML / absent DOM -/

/-- C10: score_ad_experience is 0 whenever the raw HTML is empty (the
    best-possible 100 is unreachable there), and score_seo_keywords is 0
    (not its 15-point base) whenever the DOM is absent. -/
theorem empty_html_and_absent_dom_zeros (soup : Option Soup) (seo : SeoData)
    (ka : KeywordAnalysis) (il : InternalLinking) (cf : ContentFreshness)
    (url : String) :
    score_ad_experience "" soup = 0
      ∧ score_seo_keywords none seo ka il cf url = 0 :=
  ⟨rfl, rfl⟩

/-! ### C7: ad-experience formula -/

/-- C7: for non-empty HTML, the ad-experience score is exactly 100 minus 5
    per ad-indicator substring hit minus the placement and autoplay scores,
    floored at 0; the cap at 100 never cuts in because the inner value is
    already at most 100. -/
theorem ad_experience_formula (html : String) (soup : Option Soup)
    (h : html ≠ "") :
    score_ad_experience html soup =
      pymax 0
        (100 - (adIndicatorHits html : ℚ) * 5 - (analyze_ad_placement soup : ℚ)
          - (detect_autoplay_media soup : ℚ)) := by
  unfold score_ad_experience
  rw [if_neg h, pymin_eq_min]
  apply min_eq_right
  apply pymax_le (by norm_num)
  have h1 : (0 : ℚ) ≤ (adIndicatorHits html : ℚ) * 5 :=
    natmul_nonneg _ (by norm_num)
  have h2 : (0 : ℚ) ≤ (analyze_ad_placement soup : ℚ) := Nat.cast_nonneg _
  have h3 : (0 : ℚ) ≤ (detect_autoplay_media soup : ℚ) := Nat.cast_nonneg _
  linarith

/-- Witness for C7: the HTML with 3 popup and 2 adsbygoogle occurrences and
    a DOM without placement or autoplay signals scores 100 - 25 = 75. -/
theorem ad_experience_formula_witness :
    adHtml ≠ "" ∧ score_ad_experience adHtml (some divSoup) = 75 := by
  refine ⟨by decide, ?_⟩
  rw [ad_experience_formula adHtml (some divSoup) (by decide)]
  decide

/-! ### C9: layout-quality floor -/

/-- C9 counterexample: a design dict with a negative whitespace_score drives
    score_layout_quality to -60, below the claimed universal floor of 40. -/
theorem layout_quality_below_forty :
    score_layout_quality none mobileZero securityZero designNeg = -60
      ∧ ¬ (40 : ℚ) ≤ score_layout_quality none mobileZero securityZero designNeg := by
  constructor <;> decide

/-- C9 (amended): whenever the three design sub-scores are nonnegative (as
    analyze_design_quality always produces), layout quality lies in
    [40, 100]; with an absent DOM and all-empty mobile/security/design
    dicts it is exactly 40. -/
theorem layout_quality_at_least_forty (soup : Option Soup) (md : MobileData)
    (sd : SecurityData) (dm : DesignMetrics)
    (hw : 0 ≤ dm.whitespace_score) (ht : 0 ≤ dm.typography_score)
    (hc : 0 ≤ dm.color_contrast_score) :
    (40 ≤ score_layout_quality soup md sd dm
        ∧ score_layout_quality soup md sd dm ≤ 100)
      ∧ score_layout_quality none mobileZero securityZero designZero = 40 := by
  refine ⟨⟨?_, ?_⟩, by decide⟩
  · simp only [score_layout_quality]
    refine le_pymin (by norm_num) ?_
    have h1 : (0:ℚ) ≤ if md.has_viewport then (10:ℚ) else 0 :=
      ite_nonneg _ (by norm_num) (by norm_num)
    have h2 : (0:ℚ) ≤ if md.handheld_friendly then (5:ℚ) else 0 :=
      ite_nonneg _ (by norm_num) (by norm_num)
    have h3 : (0:ℚ) ≤ if md.touch_optimized then (5:ℚ) else 0 :=
      ite_nonneg _ (by norm_num) (by norm_num)
    have h4 : (0:ℚ) ≤ if sd.https then (10:ℚ) else 0 :=
      ite_nonneg _ (by norm_num) (by norm_num)
    have h5 : (0:ℚ) ≤ (match soup with
        | some f => if countForest (tagIn ["h1"]) f = 1 then (5 : ℚ) else 0
        | none => 0) := by
      cases soup with
      | none => norm_num
      | some f => exact ite_nonneg _ (by norm_num) (by norm_num)
    linarith
  · simp only [score_layout_quality]
    exact pymin_le_left _ _

/-- Witness for C9's amended theorem at all-empty concrete inputs. -/
theorem layout_quality_at_least_forty_witness :
    ((0:ℚ) ≤ 0)
      ∧ ((40 ≤ score_layout_quality none mobileZero securityZero designZero
            ∧ score_layout_quality none mobileZero securityZero designZero ≤ 100)
          ∧ score_layout_quality none mobileZero securityZero designZero = 40) :=
  ⟨le_refl 0,
    layout_quality_at_least_forty none mobileZero securityZero designZero
      (by decide) (by decide) (by decide)⟩

/-! ### C8: internal-linking classification and thresholds -/

theorem countP_not_add {α : Type} (p : α → Bool) (l : List α) :
    l.countP p + l.countP (fun a => !p a) = l.length := by
  induction l with
  | nil => rfl
  | cons x t ih =>
    cases hx : p x <;> simp [List.countP_cons, hx] <;> omega

/-- C8: an anchor with an href is classified internal exactly when the href
    starts with "/" or contains the domain string; with at least one href
    the linking score is 15 when the internal ratio is at least 0.6
    (equivalently 3·total ≤ 5·internal), 10 when at least 0.4, else 5; and
    with no hrefs the linking score is 0. -/
theorem internal_linking_classification (domain : String) (f : Soup)
    (h : anchorHrefs f ≠ []) :
    (analyze_internal_linking (some f) domain).internal_links
        = ((anchorHrefs f).countP
            (fun s => "/".data.isPrefixOf s.data || pyContains s.data domain.data) : ℚ)
  ∧ (analyze_internal_linking (some f) domain).linking_score =
      (if 3 * (anchorHrefs f).length ≤
            5 * (anchorHrefs f).countP (fun s => isInternalHref domain s) then (15 : ℚ)
       else if 2 * (anchorHrefs f).length ≤
            5 * (anchorHrefs f).countP (fun s => isInternalHref domain s) then 10
       else 5)
  ∧ ∀ g : Soup, anchorHrefs g = [] →
      (analyze_internal_linking (some g) domain).linking_score = 0 := by
  have hIE : (anchorHrefs f).countP (fun s => isInternalHref domain s)
      + (anchorHrefs f).countP (fun s => !isInternalHref domain s)
      = (anchorHrefs f).length := countP_not_add _ _
  have htot : 0 < (anchorHrefs f).length := List.length_pos.mpr h
  refine ⟨?_, ?_, ?_⟩
  · simp only [analyze_internal_linking, if_neg (by omega : ¬ ((anchorHrefs f).countP (fun s => isInternalHref domain s) + (anchorHrefs f).countP (fun s => !isInternalHref domain s) = 0))]
    rfl
  · simp only [analyze_internal_linking, if_neg (by omega : ¬ ((anchorHrefs f).countP (fun s => isInternalHref domain s) + (anchorHrefs f).countP (fun s => !isInternalHref domain s) = 0))]
    have hQpos : (0 : ℚ) <
        (((anchorHrefs f).countP (fun s => isInternalHref domain s)
          + (anchorHrefs f).countP (fun s => !isInternalHref domain s) : ℕ) : ℚ) := by
      rw [hIE]; exact_mod_cast htot
    have hiff1 : (0.6 : ℚ) ≤
        (((anchorHrefs f).countP (fun s => isInternalHref domain s) : ℕ) : ℚ) /
          (((anchorHrefs f).countP (fun s => isInternalHref domain s)
            + (anchorHrefs f).countP (fun s => !isInternalHref domain s) : ℕ) : ℚ)
        ↔ 3 * (anchorHrefs f).length ≤
            5 * (anchorHrefs f).countP (fun s => isInternalHref domain s) := by
      rw [le_div_iff₀ hQpos]
      rw [show ((anchorHrefs f).countP (fun s => isInternalHref domain s)
          + (anchorHrefs f).countP (fun s => !isInternalHref domain s)) = (anchorHrefs f).length from hIE]
      constructor
      · intro hx
        have : (3 * (anchorHrefs f).length : ℚ) ≤
            (5 * (anchorHrefs f).countP (fun s => isInternalHref domain s) : ℚ) := by
          push_cast at hx ⊢
          linarith
        exact_mod_cast this
      · intro hx
        have hx' : (3 * (anchorHrefs f).length : ℚ) ≤
            (5 * (anchorHrefs f).countP (fun s => isInternalHref domain s) : ℚ) := by
          exact_mod_cast hx
        push_cast at hx' ⊢
        linarith
    have hiff2 : (0.4 : ℚ) ≤
        (((anchorHrefs f).countP (fun s => isInternalHref domain s) : ℕ) : ℚ) /
          (((anchorHrefs f).countP (fun s => isInternalHref domain s)
            + (anchorHrefs f).countP (fun s => !isInternalHref domain s) : ℕ) : ℚ)
        ↔ 2 * (anchorHrefs f).length ≤
            5 * (anchorHrefs f).countP (fun s => isInternalHref domain s) := by
      rw [le_div_iff₀ hQpos]
      rw [show ((anchorHrefs f).countP (fun s => isInternalHref domain s)
          + (anchorHrefs f).countP (fun s => !isInternalHref domain s)) = (anchorHrefs f).length from hIE]
      constructor
      · intro hx
        have : (2 * (anchorHrefs f).length : ℚ) ≤
            (5 * (anchorHrefs f).countP (fun s => isInternalHref domain s) : ℚ) := by
          push_cast at hx ⊢
          linarith
        exact_mod_cast this
      · intro hx
        have hx' : (2 * (anchorHrefs f).length : ℚ) ≤
            (5 * (anchorHrefs f).countP (fun s => isInternalHref domain s) : ℚ) := by
          exact_mod_cast hx
        push_cast at hx' ⊢
        linarith
    rw [if_congr hiff1 rfl (if_congr hiff2 rfl rfl)]
  · intro g hg
    simp [analyze_internal_linking, hg]

/-- Witness for C8: the 6-internal / 4-external DOM has internal ratio 0.6
    and linking score 15. -/
theorem internal_linking_witness :
    anchorHrefs linkSoup ≠ []
  ∧ (analyze_internal_linking (some linkSoup) "example.com").linking_score = 15
  ∧ (analyze_internal_linking (some linkSoup) "example.com").internal_links
      = ((anchorHrefs linkSoup).countP
          (fun s => "/".data.isPrefixOf s.data || pyContains s.data "example.com".data) : ℚ) := by
  refine ⟨by decide, by decide,
    (internal_linking_classification "example.com" linkSoup (by decide)).1⟩

/-! ### C3: range of the scorers -/

/-- C3 counterexample: an auxiliary citation dictionary with a negative
    citation_score makes score_informativeness return a negative value, so
    the scorers are not clamped to [0,100] for arbitrary auxiliary signal
    dictionaries. -/
theorem informativeness_negative_on_adversarial_dict :
    score_informativeness "hello" (some divSoup) citationNeg < 0
      ∧ ¬ (0 : ℚ) ≤ score_informativeness "hello" (some divSoup) citationNeg := by
  constructor <;> decide

theorem inRange_zero : inRange 0 := ⟨le_refl 0, by norm_num⟩

theorem score_readability_inRange (text : String) (rd : ReadabilityDetails) :
    inRange (score_readability text rd) := by
  unfold score_readability
  split_ifs with h
  · exact ⟨by norm_num, by norm_num⟩
  · exact clamp_inRange _

theorem score_informativeness_inRange (text : String) (soup : Option Soup)
    (ca : CitationAnalysis) (hca : 0 ≤ ca.citation_score) :
    inRange (score_informativeness text soup ca) := by
  cases soup with
  | none => exact inRange_zero
  | some f =>
    simp only [score_informativeness]
    split_ifs with h
    · exact inRange_zero
    · refine pymin100_inRange ?_
      have h1 : (0:ℚ) ≤ pymin 30 (((pySplit text).length : ℚ) / 100) :=
        pymin_nonneg (by norm_num) (div_nonneg (Nat.cast_nonneg _) (by norm_num))
      have h2 : (0:ℚ) ≤ pymin 25
          ((countForest (tagIn ["h1", "h2", "h3", "h4", "h5", "h6"]) f : ℚ) * 2) :=
        pymin_nonneg (by norm_num) (natmul_nonneg _ (by norm_num))
      have h3 : (0:ℚ) ≤ pymin 20
          (((countForest (tagIn ["img"]) f : ℚ) + (countForest (tagIn ["a"]) f : ℚ)) * 1.5) :=
        pymin_nonneg (by norm_num)
          (mul_nonneg (add_nonneg (Nat.cast_nonneg _) (Nat.cast_nonneg _)) (by norm_num))
      have h4 : (0:ℚ) ≤ pymin 25 ca.citation_score :=
        pymin_nonneg (by norm_num) hca
      linarith

theorem score_engagement_inRange (text : String) (soup : Option Soup) :
    inRange (score_engagement text soup) := by
  unfold score_engagement
  split_ifs with h
  · exact inRange_zero
  · refine pymin100_inRange ?_
    have hs : (0:ℚ) ≤ pymax 0
        (pymin 100 (50 + ((countWordAlts positiveWordAlts (lowerChars text.data) : ℚ)
          - (countWordAlts negativeWordAlts (lowerChars text.data) : ℚ)) * 3)) :=
      le_pymax_left _ _
    have hi : (0:ℚ) ≤ pymin 30
        ((pyCount text.data "?".data : ℚ) * 2
          + (pyCount text.data "!".data : ℚ) * 1.5
          + (countWordAlts ctaWordAlts (lowerChars text.data) : ℚ) * 2) :=
      pymin_nonneg (by norm_num)
        (add_nonneg (add_nonneg (natmul_nonneg _ (by norm_num))
          (natmul_nonneg _ (by norm_num))) (natmul_nonneg _ (by norm_num)))
    have hsk := skimming_nonneg soup
    linarith

theorem score_uniqueness_inRange (text : String) :
    inRange (score_uniqueness text) := by
  unfold score_uniqueness
  split_ifs with h
  · exact inRange_zero
  · refine pymin100_inRange ?_
    have h1 : (0:ℚ) ≤ pymin 20
        ((countWordAlts researchWordAlts (lowerChars text.data) : ℚ) * 3) :=
      pymin_nonneg (by norm_num) (natmul_nonneg _ (by norm_num))
    have h2 : (0:ℚ) ≤ pymin 15
        ((countWordAlts firstPersonAlts (lowerChars text.data) : ℚ) * 0.8) :=
      pymin_nonneg (by norm_num) (natmul_nonneg _ (by norm_num))
    have hr : (0:ℚ) ≤ (if (tokensMinLen 4 text).isEmpty then (0:ℚ)
        else ((firstOccurrences (tokensMinLen 4 text)).length : ℚ)
          / ((tokensMinLen 4 text).length : ℚ)) :=
      ite_nonneg _ (le_refl 0) (div_nonneg (Nat.cast_nonneg _) (Nat.cast_nonneg _))
    have h3 : (0:ℚ) ≤ pymin 15
        ((if (tokensMinLen 4 text).isEmpty then (0:ℚ)
          else ((firstOccurrences (tokensMinLen 4 text)).length : ℚ)
            / ((tokensMinLen 4 text).length : ℚ)) * 30) :=
      pymin_nonneg (by norm_num) (mul_nonneg hr (by norm_num))
    have h4 : (0:ℚ) ≤ pymin 10
        ((countWordAlts primaryResearchAlts (lowerChars text.data) : ℚ) * 2) :=
      pymin_nonneg (by norm_num) (natmul_nonneg _ (by norm_num))
    linarith

theorem score_discoverability_inRange (soup : Option Soup) :
    inRange (score_discoverability soup) := by
  cases soup with
  | none => exact inRange_zero
  | some f =>
    simp only [score_discoverability]
    refine pymin100_inRange ?_
    have h1 : (0:ℚ) ≤ if (findForest
        (fun t a => t == "input" && getAttr a "type" == some "search") f).isSome
        then (15:ℚ) else 5 := ite_nonneg _ (by norm_num) (by norm_num)
    have h2 : (0:ℚ) ≤ pymin 20 ((countForest (tagIn ["nav"]) f : ℚ) * 5) :=
      pymin_nonneg (by norm_num) (natmul_nonneg _ (by norm_num))
    have h3 : (0:ℚ) ≤ if (findForest
        (fun _ a => classMatchesAlts ["breadcrumb"] a) f).isSome
        then (15:ℚ) else 0 := ite_nonneg _ (by norm_num) (le_refl 0)
    have h4 : (0:ℚ) ≤ if (findForest
        (fun t a => t == "a" &&
          (match getAttr a "href" with
           | some hr => wildSearch "sitemap".data (lowerChars hr.data)
           | none => false)) f).isSome
        then (10:ℚ) else 0 := ite_nonneg _ (by norm_num) (le_refl 0)
    have h5 : (0:ℚ) ≤ pymin 15 ((find_featured_content (some f) : ℚ) * 3) :=
      pymin_nonneg (by norm_num) (natmul_nonneg _ (by norm_num))
    have h6 : (0:ℚ) ≤ pymin 25 (analyze_category_organization (some f) : ℚ) :=
      pymin_nonneg (by norm_num) (Nat.cast_nonneg _)
    linarith

theorem score_ad_experience_inRange (html : String) (soup : Option Soup) :
    inRange (score_ad_experience html soup) := by
  unfold score_ad_experience
  split_ifs with h
  · exact inRange_zero
  · exact clamp_inRange _

theorem score_social_integration_inRange (social : Option SocialData)
    (h : SocialNonneg social) :
    inRange (score_social_integration social) := by
  cases social with
  | none => exact inRange_zero
  | some sd =>
    obtain ⟨h1, h2, h3, h4⟩ := h
    simp only [score_social_integration]
    refine pymin100_inRange ?_
    have hp : (0:ℚ) ≤ (([sd.facebook, sd.twitter, sd.instagram, sd.linkedin,
        sd.youtube, sd.pinterest, sd.tiktok].countP id : ℕ) : ℚ) * 10 :=
      natmul_nonneg _ (by norm_num)
    have hb : (0:ℚ) ≤ sd.sharing_buttons * 3 := mul_nonneg h1 (by norm_num)
    have hs1 : (0:ℚ) ≤ pymin (sd.social_proof.share_counts * 2) 10 :=
      pymin_nonneg (mul_nonneg h2 (by norm_num)) (by norm_num)
    have hs2 : (0:ℚ) ≤ pymin (sd.social_proof.follower_counts * 2) 10 :=
      pymin_nonneg (mul_nonneg h3 (by norm_num)) (by norm_num)
    have hs3 : (0:ℚ) ≤ pymin (sd.social_proof.testimonials * 3) 15 :=
      pymin_nonneg (mul_nonneg h4 (by norm_num)) (by norm_num)
    linarith

theorem score_layout_quality_inRange (soup : Option Soup) (md : MobileData)
    (sd : SecurityData) (dm : DesignMetrics)
    (hw : 0 ≤ dm.whitespace_score) (ht : 0 ≤ dm.typography_score)
    (hc : 0 ≤ dm.color_contrast_score) :
    inRange (score_layout_quality soup md sd dm) := by
  simp only [score_layout_quality]
  constructor
  · refine le_pymin (by norm_num) ?_
    have h1 : (0:ℚ) ≤ if md.has_viewport then (10:ℚ) else 0 :=
      ite_nonneg _ (by norm_num) (le_refl 0)
    have h2 : (0:ℚ) ≤ if md.handheld_friendly then (5:ℚ) else 0 :=
      ite_nonneg _ (by norm_num) (le_refl 0)
    have h3 : (0:ℚ) ≤ if md.touch_optimized then (5:ℚ) else 0 :=
      ite_nonneg _ (by norm_num) (le_refl 0)
    have h4 : (0:ℚ) ≤ if sd.https then (10:ℚ) else 0 :=
      ite_nonneg _ (by norm_num) (le_refl 0)
    have h5 : (0:ℚ) ≤ (match soup with
        | some f => if countForest (tagIn ["h1"]) f = 1 then (5 : ℚ) else 0
        | none => 0) := by
      cases soup with
      | none => norm_num
      | some f => exact ite_nonneg _ (by norm_num) (le_refl 0)
    linarith
  · exact pymin_le_left _ _

theorem score_seo_keywords_inRange (soup : Option Soup) (seo : SeoData)
    (ka : KeywordAnalysis) (il : InternalLinking) (cf : ContentFreshness)
    (url : String) (hka : 0 ≤ ka.keyword_score) (hil : 0 ≤ il.linking_score)
    (hcf : 0 ≤ cf.freshness_score) :
    inRange (score_seo_keywords soup seo ka il cf url) := by
  cases soup with
  | none => exact inRange_zero
  | some f =>
    simp only [score_seo_keywords]
    refine pymin100_inRange ?_
    have htitle : (0:ℚ) ≤ (match findForest (fun t _ => t == "title") f with
        | some nd =>
          match nodeString nd with
          | some ts => if 30 ≤ ts.length ∧ ts.length ≤ 60 then (10:ℚ) else 0
          | none => 0
        | none => 0) := by
      split
      · split
        · exact ite_nonneg _ (by norm_num) (le_refl 0)
        · exact le_refl 0
      · exact le_refl 0
    have hmeta : (0:ℚ) ≤ (match findForest
        (fun t a => t == "meta" && getAttr a "name" == some "description") f with
        | some (Node.elem _ a _) =>
          match getAttr a "content" with
          | some c => if c ≠ "" ∧ 120 ≤ c.length ∧ c.length ≤ 160 then (10:ℚ) else 0
          | none => 0
        | _ => 0) := by
      split
      · split
        · exact ite_nonneg _ (by norm_num) (le_refl 0)
        · exact le_refl 0
      · exact le_refl 0
    have hh1 : (0:ℚ) ≤ if countForest (tagIn ["h1"]) f = 1 then (5:ℚ) else 0 :=
      ite_nonneg _ (by norm_num) (le_refl 0)
    have hidx : (0:ℚ) ≤ if seo.indexed then (10:ℚ) else 0 :=
      ite_nonneg _ (by norm_num) (le_refl 0)
    have hschema : (0:ℚ) ≤ pymin ((countForest
        (fun t a => t == "script" && getAttr a "type" == some "application/ld+json") f : ℚ) * 3) 10 :=
      pymin_nonneg (natmul_nonneg _ (by norm_num)) (by norm_num)
    have hurl : (0:ℚ) ≤ (analyze_url_structure url : ℚ) := Nat.cast_nonneg _
    linarith

/-- C3 (amended): each of the nine scorers stays within [0,100] for every
    text / DOM / URL input, provided the numeric entries of the auxiliary
    signal dictionaries it reads are nonnegative (which is what the
    pipeline's extractors and data collectors always produce); and the
    ScoreSet assembled by analyze carries exactly the nine fixed criterion
    keys, each once. -/
theorem scorers_clamped_with_nonneg_signals
    (text html url domain : String) (soup : Option Soup)
    (rd : ReadabilityDetails) (ca : CitationAnalysis) (dm : DesignMetrics)
    (ka : KeywordAnalysis) (il : InternalLinking) (cf : ContentFreshness)
    (md : MobileData) (sd : SecurityData) (seo : SeoData)
    (social : Option SocialData)
    (hca : 0 ≤ ca.citation_score)
    (hw : 0 ≤ dm.whitespace_score) (htp : 0 ≤ dm.typography_score)
    (hcc : 0 ≤ dm.color_contrast_score)
    (hka : 0 ≤ ka.keyword_score) (hil : 0 ≤ il.linking_score)
    (hcf : 0 ≤ cf.freshness_score) (hsoc : SocialNonneg social) :
    inRange (score_readability text rd)
  ∧ inRange (score_informativeness text soup ca)
  ∧ inRange (score_engagement text soup)
  ∧ inRange (score_uniqueness text)
  ∧ inRange (score_discoverability soup)
  ∧ inRange (score_ad_experience html soup)
  ∧ inRange (score_social_integration social)
  ∧ inRange (score_layout_quality soup md sd dm)
  ∧ inRange (score_seo_keywords soup seo ka il cf url)
  ∧ ((analyzeScores text html url domain soup rd md sd seo social).toPairs.map
        Prod.fst = criterionKeys
      ∧ criterionKeys.Nodup) :=
  ⟨score_readability_inRange text rd,
   score_informativeness_inRange text soup ca hca,
   score_engagement_inRange text soup,
   score_uniqueness_inRange text,
   score_discoverability_inRange soup,
   score_ad_experience_inRange html soup,
   score_social_integration_inRange social hsoc,
   score_layout_quality_inRange soup md sd dm hw htp hcc,
   score_seo_keywords_inRange soup seo ka il cf url hka hil hcf,
   rfl, by decide⟩

/-- Witness for C3's amended theorem at all-empty concrete inputs. -/
theorem scorers_clamped_witness :
    ((0:ℚ) ≤ 0 ∧ SocialNonneg none)
      ∧ (inRange (score_readability "" rdZero)
          ∧ inRange (score_informativeness "" none ⟨0, 0, 0⟩)
          ∧ inRange (score_engagement "" none)
          ∧ inRange (score_uniqueness "")
          ∧ inRange (score_discoverability none)
          ∧ inRange (score_ad_experience "" none)
          ∧ inRange (score_social_integration none)
          ∧ inRange (score_layout_quality none mobileZero securityZero designZero)
          ∧ inRange (score_seo_keywords none seoZero ⟨[], 0, 0⟩ ⟨0, 0, 0⟩ ⟨none, 0, 0⟩ "")
          ∧ ((analyzeScores "" "" "" "" none rdZero mobileZero securityZero
                seoZero none).toPairs.map Prod.fst = criterionKeys
              ∧ criterionKeys.Nodup)) :=
  ⟨⟨le_refl 0, trivial⟩,
    scorers_clamped_with_nonneg_signals "" "" "" "" none rdZero ⟨0, 0, 0⟩
      designZero ⟨[], 0, 0⟩ ⟨0, 0, 0⟩ ⟨none, 0, 0⟩ mobileZero securityZero
      seoZero none (by decide) (by decide) (by decide) (by decide) (by decide)
      (by decide) (by decide) trivial⟩

/-! ### C4: keyword-density bands -/

theorem countP_or_disjoint {α : Type} (p q : α → Bool) (l : List α)
    (h : ∀ x, ¬(p x = true ∧ q x = true)) :
    l.countP (fun x => p x || q x) = l.countP p + l.countP q := by
  induction l with
  | nil => rfl
  | cons x t ih =>
    cases hp : p x
    · cases hq : q x
      · simp [List.countP_cons, hp, hq, ih]
      · simp [List.countP_cons, hp, hq, ih]; omega
    · cases hq : q x
      · simp [List.countP_cons, hp, hq, ih]; omega
      · exact absurd ⟨hp, hq⟩ (h x)

/-- Summing the multiplicities of pairwise-distinct values cannot exceed the
    length of the list they are counted in. -/
theorem sum_counts_eq_countP (l : List String) :
    ∀ ws : List String, ws.Nodup →
      (ws.map (fun w => l.count w)).sum
        = l.countP (fun x => ws.contains x) := by
  intro ws
  induction ws with
  | nil =>
    intro _
    simp [List.countP_eq_zero]
  | cons w t ih =>
    intro h
    obtain ⟨hwt, ht⟩ := List.nodup_cons.mp h
    rw [List.map_cons, List.sum_cons, ih ht]
    have hdisj : ∀ x : String, ¬((x == w) = true ∧ t.contains x = true) := by
      intro x ⟨hx1, hx2⟩
      apply hwt
      have hxw : x = w := eq_of_beq hx1
      subst hxw
      exact List.mem_of_elem_eq_true hx2
    rw [List.count_eq_countP,
      ← countP_or_disjoint (fun x => x == w) (fun x => t.contains x) l hdisj]
    apply List.countP_congr
    intro x _
    simp [List.elem_cons]

theorem firstOccurrences_nodup (l : List String) :
    (firstOccurrences l).Nodup := by
  suffices h : ∀ acc : List String, acc.Nodup →
      (l.foldl (fun acc w => if acc.contains w then acc else acc ++ [w])
        acc).Nodup by
    exact h [] List.nodup_nil
  induction l with
  | nil => intro acc hacc; exact hacc
  | cons x t ih =>
    intro acc hacc
    simp only [List.foldl_cons]
    by_cases hx : acc.contains x
    · rw [if_pos hx]; exact ih acc hacc
    · rw [if_neg hx]
      apply ih
      rw [List.nodup_append]
      refine ⟨hacc, List.nodup_singleton x, ?_⟩
      intro a ha hmem
      rw [List.mem_singleton] at hmem
      subst hmem
      exact hx (List.elem_eq_true_of_mem ha)

/-- The sum of the top-10 keyword frequencies never exceeds the total token
    count (the ten words are distinct, so their multiplicities partition part
    of the token list). -/
theorem topKeywordCounts_sum_le (text : String) :
    (topKeywordCounts text).sum ≤ (tokensMinLen 5 text).length := by
  unfold topKeywordCounts
  set words := tokensMinLen 5 text with hwords
  set meaningful := (firstOccurrences words).filter
    (fun w => !stop_words.contains w) with hmean
  set pairs := meaningful.map (fun w => (w, words.count w)) with hpairs
  set sorted := List.insertionSort (fun a b => b.2 ≤ a.2) pairs with hsorted
  set tp := sorted.take 10 with htp
  have hsnd : tp.map Prod.snd = (tp.map Prod.fst).map (fun w => words.count w) := by
    rw [List.map_map]
    apply List.map_congr_left
    intro p hp
    have hp2 : p ∈ pairs :=
      (List.perm_insertionSort _ pairs).subset (List.take_subset 10 sorted hp)
    obtain ⟨w, _, rfl⟩ := List.mem_map.mp hp2
    rfl
  have hnd : (tp.map Prod.fst).Nodup := by
    have h2 : meaningful.Nodup := (firstOccurrences_nodup words).filter _
    have h3 : (pairs.map Prod.fst).Nodup := by
      rw [hpairs, List.map_map]
      show (List.map (fun w => w) meaningful).Nodup
      rw [List.map_id']
      exact h2
    have h4 : (sorted.map Prod.fst).Nodup :=
      (((List.perm_insertionSort _ pairs).map Prod.fst).nodup_iff).mpr h3
    exact h4.sublist ((sorted.take_sublist 10).map Prod.fst)
  rw [hsnd, sum_counts_eq_countP words (tp.map Prod.fst) hnd]
  · exact List.countP_le_length _
  -- alignment between contains-based countP and the membership predicate


/-- C4 counterexample: at the scenario text (100 tokens, top-10 non-stop-word
    frequencies summing to 15) analyze_keywords reports keyword_density
    15.00 but keyword_score 5, not the claimed 10; and at a 200-token text
    with density percentage 1.5 (inside the claimed [1,2] band for 15) the
    score is again 5, because the bands are compared against the raw
    fraction (0.15 resp. 0.015), not the percentage. -/
theorem keyword_scenario_density_15_score_5 :
    ((analyze_keywords kwText).keyword_density = 15
      ∧ (analyze_keywords kwText).keyword_score = 5
      ∧ (analyze_keywords kwText).keyword_score ≠ 10)
  ∧ ((analyze_keywords kwText2).keyword_density = 1.5
      ∧ (analyze_keywords kwText2).keyword_score = 5
      ∧ (analyze_keywords kwText2).keyword_score ≠ 15) := by
  have hd : (analyze_keywords kwText).keyword_density = 15 := by decide
  have hs : (analyze_keywords kwText).keyword_score = 5 := by decide
  have hd2 : (analyze_keywords kwText2).keyword_density = 1.5 := by decide
  have hs2 : (analyze_keywords kwText2).keyword_score = 5 := by decide
  exact ⟨⟨hd, hs, by rw [hs]; norm_num⟩, ⟨hd2, hs2, by rw [hs2]; norm_num⟩⟩

/-- C4 (amended): analyze_keywords compares the raw top-10 frequency
    fraction (sum of top-10 non-stop-word frequencies / token count, NOT
    multiplied by 100) against its bands; since that fraction never exceeds
    1, the published behaviour is: 15 when the fraction is 1 (all tokens in
    the top ten), 10 when it is at least 0.5, else 5 — while the stored
    keyword_density field is the rounded percentage. -/
theorem keyword_bands_use_raw_fraction (text : String)
    (h : tokensMinLen 5 text ≠ []) :
    kwFraction text ≤ 1
  ∧ (analyze_keywords text).keyword_density = pyRound2 (kwFraction text * 100)
  ∧ (analyze_keywords text).keyword_score =
      (if 1 ≤ kwFraction text then 15
       else if 1/2 ≤ kwFraction text then 10 else 5) := by
  have hlen : 0 < (tokensMinLen 5 text).length := List.length_pos.mpr h
  have hsum := topKeywordCounts_sum_le text
  have hfrac1 : kwFraction text ≤ 1 := by
    unfold kwFraction
    rw [div_le_one (by exact_mod_cast hlen)]
    exact_mod_cast hsum
  have htext : text ≠ "" := by
    intro he
    apply h
    rw [he]
    rfl
  have hlen' : ¬ (tokensMinLen 5 text).length = 0 := by omega
  refine ⟨hfrac1, ?_, ?_⟩
  · simp only [analyze_keywords, if_neg htext, if_neg hlen']
    rfl
  · simp only [analyze_keywords, if_neg htext, if_neg hlen']
    have hiff1 : (1 ≤ kwFraction text ∧ kwFraction text ≤ 2) ↔ 1 ≤ kwFraction text :=
      ⟨fun hx => hx.1, fun hx => ⟨hx, by linarith⟩⟩
    have hiff2 : (1/2 ≤ kwFraction text ∧ kwFraction text ≤ 3) ↔ 1/2 ≤ kwFraction text :=
      ⟨fun hx => hx.1, fun hx => ⟨hx, by linarith⟩⟩
    exact if_congr hiff1 rfl (if_congr hiff2 rfl rfl)

/-- Witness for C4's amended theorem on a small text whose three tokens all
    land in the top ten (fraction 1, score 15). -/
theorem keyword_bands_witness :
    tokensMinLen 5 "apple apple banana" ≠ []
  ∧ (kwFraction "apple apple banana" ≤ 1
      ∧ (analyze_keywords "apple apple banana").keyword_density
          = pyRound2 (kwFraction "apple apple banana" * 100)
      ∧ (analyze_keywords "apple apple banana").keyword_score =
          (if 1 ≤ kwFraction "apple apple banana" then 15
           else if 1/2 ≤ kwFraction "apple apple banana" then 10 else 5)) :=
  ⟨by decide, keyword_bands_use_raw_fraction "apple apple banana" (by decide)⟩

/-! ### C5: recommendation merge, sort and (absence of) truncation -/

theorem filter_orderedInsert (key : String → ℕ) (k : ℕ) (x : String)
    (l : List String) :
    (List.orderedInsert (fun a b => key a ≤ key b) x l).filter
        (fun a => key a == k)
      = if key x = k then
          x :: l.filter (fun a => key a == k)
        else l.filter (fun a => key a == k) := by
  induction l with
  | nil =>
    by_cases hx : key x = k <;>
      simp [List.orderedInsert, List.filter_cons, hx]
  | cons y t ih =>
    simp only [List.orderedInsert]
    by_cases hxy : key x ≤ key y
    · rw [if_pos hxy]
      by_cases hx : key x = k <;> simp [List.filter_cons, hx]
    · rw [if_neg hxy]
      have hyx : key y < key x := Nat.lt_of_not_le hxy
      by_cases hy : key y = k
      · have hx : ¬ key x = k := by omega
        simp [List.filter_cons, hy, hx, ih]
      · by_cases hx : key x = k <;>
          simp [List.filter_cons, hy, hx, ih]

theorem filter_insertionSort (key : String → ℕ) (k : ℕ) (l : List String) :
    (List.insertionSort (fun a b => key a ≤ key b) l).filter
        (fun a => key a == k)
      = l.filter (fun a => key a == k) := by
  induction l with
  | nil => rfl
  | cons x t ih =>
    simp only [List.insertionSort]
    rw [filter_orderedInsert key k x]
    by_cases hx : key x = k
    · rw [if_pos hx, ih, List.filter_cons, if_pos (by simpa using hx)]
    · rw [if_neg hx, ih, List.filter_cons, if_neg (by simpa using hx)]

/-- C5 counterexample: with all-zero scores and empty signal data the
    returned recommendation list has 19 entries — generate_recommendations
    performs no truncation to 10. -/
theorem recommendations_not_truncated_to_ten :
    (generate_recommendations demoScores emptyFreeData).length = 19
      ∧ ¬ (generate_recommendations demoScores emptyFreeData).length ≤ 10 := by
  have h : (generate_recommendations demoScores emptyFreeData).length = 19 := by
    decide
  exact ⟨h, by rw [h]; omega⟩

/-- C5 (amended): the recommendation list is a permutation of the merged
    per-criterion and data-driven messages, sorted by priority tier
    (CRITICAL, HIGH, MEDIUM, LOW, EXCELLENT, unknown prefixes last) with the
    sort stable (every tier's messages keep their merge order), and it is
    NOT truncated: all merged entries are returned. -/
theorem recommendations_sorted_stably_untruncated
    (scores : List (String × ℚ)) (free_data : FreeData) :
    (generate_recommendations scores free_data).Perm
        (mergedRecommendations scores free_data)
  ∧ (generate_recommendations scores free_data).length
      = (mergedRecommendations scores free_data).length
  ∧ (generate_recommendations scores free_data).Pairwise
      (fun a b => recKey a ≤ recKey b)
  ∧ ∀ k : ℕ,
      (generate_recommendations scores free_data).filter
          (fun s => recKey s == k)
        = (mergedRecommendations scores free_data).filter
            (fun s => recKey s == k) := by
  haveI hTot : IsTotal String (fun a b => recKey a ≤ recKey b) :=
    ⟨fun a b => Nat.le_total (recKey a) (recKey b)⟩
  haveI hTrans : IsTrans String (fun a b => recKey a ≤ recKey b) :=
    ⟨fun _ _ _ h1 h2 => Nat.le_trans h1 h2⟩
  have hperm := List.perm_insertionSort (fun a b => recKey a ≤ recKey b)
    (mergedRecommendations scores free_data)
  refine ⟨hperm, hperm.length_eq, ?_, ?_⟩
  · exact List.sorted_insertionSort (fun a b => recKey a ≤ recKey b)
      (mergedRecommendations scores free_data)
  · intro k
    exact filter_insertionSort recKey k (mergedRecommendations scores free_data)

end WebBoost
